import Mathlib

/-!
Verification of the Streamable HTTP MCP transport in
`src/mcp-streamable-handler.js` (the revision whose `mcpPost` starts at
line 1068): origin validation, JSON-RPC dispatch, Accept-header content
negotiation, SSE framing, and the `create_workout_program` tool.

Modelling conventions (shallow embedding of the JavaScript source):
* JSON values are an inductive `Json`; numbers are integers (every numeric
  literal in the handler and in the verified properties is an integer, for
  which IEEE doubles are exact).
* `JSON.parse` / `JSON.stringify` are executable Lean functions over a
  practical JSON subset (integer numerals; `\uXXXX` escapes decode to the
  corresponding scalar value).  `JSON.parse` throwing is `Option.none`.
* JavaScript property reads yield `Option Json`, `none` playing the role of
  `undefined`.  A property whose value would be `undefined` is modelled by
  omitting the key, which is indistinguishable through reads and
  `JSON.stringify`.
* `Date.now()`, `new Date()` and `uuidv4()` are supplied by an `Env`;
  the MongoDB collaborator (`ContentItems`, per the spec an external
  "content repository") is an abstract `Repo`, and the `Store` is the list
  of documents passed to `ContentItems.create`, in call order.
-/

/-- JSON values (results of `JSON.parse`, inputs of `JSON.stringify`). -/
inductive Json where
  | null : Json
  | bool (b : Bool) : Json
  | num (n : Int) : Json
  | str (s : String) : Json
  | arr (xs : List Json) : Json
  | obj (fields : List (String × Json)) : Json
deriving Repr

mutual
def Json.beq : Json → Json → Bool
  | .null, .null => true
  | .bool a, .bool b => a == b
  | .num a, .num b => a == b
  | .str a, .str b => a == b
  | .arr a, .arr b => beqList a b
  | .obj a, .obj b => beqFields a b
  | _, _ => false

def beqList : List Json → List Json → Bool
  | [], [] => true
  | a :: as, b :: bs => Json.beq a b && beqList as bs
  | _, _ => false

def beqFields : List (String × Json) → List (String × Json) → Bool
  | [], [] => true
  | (k1, v1) :: as, (k2, v2) :: bs => k1 == k2 && Json.beq v1 v2 && beqFields as bs
  | _, _ => false
end

mutual
theorem Json.beq_iff : ∀ a b : Json, Json.beq a b = true ↔ a = b
  | .null, b => by cases b <;> simp [Json.beq]
  | .bool a, b => by cases b <;> simp [Json.beq]
  | .num a, b => by cases b <;> simp [Json.beq]
  | .str a, b => by cases b <;> simp [Json.beq]
  | .arr xs, b => by
      cases b with
      | arr ys => simp only [Json.beq, Json.arr.injEq]; exact beqList_iff xs ys
      | null => simp [Json.beq]
      | bool b => simp [Json.beq]
      | num n => simp [Json.beq]
      | str s => simp [Json.beq]
      | obj fs => simp [Json.beq]
  | .obj fs, b => by
      cases b with
      | obj gs => simp only [Json.beq, Json.obj.injEq]; exact beqFields_iff fs gs
      | null => simp [Json.beq]
      | bool b => simp [Json.beq]
      | num n => simp [Json.beq]
      | str s => simp [Json.beq]
      | arr xs => simp [Json.beq]

theorem beqList_iff : ∀ xs ys : List Json, beqList xs ys = true ↔ xs = ys
  | [], ys => by cases ys <;> simp [beqList]
  | x :: xs, ys => by
      cases ys with
      | nil => simp [beqList]
      | cons y ys =>
          simp only [beqList, Bool.and_eq_true, List.cons.injEq]
          rw [Json.beq_iff x y, beqList_iff xs ys]

theorem beqFields_iff : ∀ xs ys : List (String × Json), beqFields xs ys = true ↔ xs = ys
  | [], ys => by cases ys <;> simp [beqFields]
  | (k, v) :: xs, ys => by
      cases ys with
      | nil => simp [beqFields]
      | cons y ys =>
          obtain ⟨k2, v2⟩ := y
          simp only [beqFields, Bool.and_eq_true, List.cons.injEq, Prod.mk.injEq, beq_iff_eq]
          rw [Json.beq_iff v v2, beqFields_iff xs ys]
end

instance : DecidableEq Json := fun a b =>
  decidable_of_iff (Json.beq a b = true) (Json.beq_iff a b)

/-- JavaScript truthiness of a JSON value. -/
def Json.truthy : Json → Bool
  | .null => false
  | .bool b => b
  | .num n => n != 0
  | .str s => s != ""
  | .arr _ => true
  | .obj _ => true

/-- Truthiness of a possibly-`undefined` value (`undefined` is falsy). -/
def truthyOpt : Option Json → Bool
  | none => false
  | some v => v.truthy

/-- Property read `o[k]`: `undefined` (`none`) when the key is absent or the
receiver is not an object.  (Reads on `null` throw in JS; the one place the
handler can do that is modelled explicitly at its call site.) -/
def Json.get : Json → String → Option Json
  | .obj fs, k => fs.lookup k
  | _, _ => none

/-- Key update used to model property assignment `o[k] = v`: replaces the
value at an existing key in place, else appends (JS insertion order).
Assignment to a primitive receiver is a silent no-op in non-strict mode,
and a non-index property set on an array is invisible to `JSON.stringify`
and to every later read the handler performs, so both are identities here. -/
def setFields : List (String × Json) → String → Json → List (String × Json)
  | [], k, v => [(k, v)]
  | (k0, v0) :: rest, k, v =>
      if k0 = k then (k0, v) :: rest else (k0, v0) :: setFields rest k v

def Json.setField : Json → String → Json → Json
  | .obj fs, k, v => .obj (setFields fs k v)
  | j, _, _ => j

/-- `a || b` where `a` is a property read (JS short-circuit on truthiness). -/
def jsOrJ (a : Option Json) (b : Json) : Json :=
  match a with
  | some v => if v.truthy then v else b
  | none => b

/-- `a || b` on header strings (`undefined` and `""` are falsy). -/
def jsOrStr (a b : Option String) : Option String :=
  match a with
  | some s => if s ≠ "" then some s else b
  | none => b

/-- Key present iff the JS value is defined; used where the source stores a
possibly-`undefined` value in an object literal. -/
def optField (k : String) : Option Json → List (String × Json)
  | some v => [(k, v)]
  | none => []

/-- `listStartsWith pre l` : `pre` is an initial segment of `l`. -/
def listStartsWith : List Char → List Char → Bool
  | [], _ => true
  | _ :: _, [] => false
  | a :: as, b :: bs => a == b && listStartsWith as bs

/-- Substring occurrence on character lists. -/
def listHasSub (sub : List Char) : List Char → Bool
  | [] => listStartsWith sub []
  | c :: rest => listStartsWith sub (c :: rest) || listHasSub sub rest

/-- `String.prototype.includes`. -/
def jsIncludes (s sub : String) : Bool :=
  listHasSub sub.data s.data

/-- `s` contains `sub` as a substring (statement-level form). -/
def strContains (s sub : String) : Prop :=
  ∃ a b : String, s = a ++ (sub ++ b)

/-- Decimal digits, fuel-structural so that the kernel can evaluate it
(the fuel `n + 1` always suffices: a number has at most `n + 1` digits). -/
def natToCharsAux : Nat → Nat → List Char
  | 0, _ => []
  | fuel + 1, n =>
      if n < 10 then [Char.ofNat (48 + n)]
      else natToCharsAux fuel (n / 10) ++ [Char.ofNat (48 + n % 10)]

/-- Decimal digits of a natural number, most significant first. -/
def natToChars (n : Nat) : List Char :=
  natToCharsAux (n + 1) n

/-- `Number.prototype.toString` for a nonnegative integer. -/
def jsNatToString (n : Nat) : String :=
  ⟨natToChars n⟩

/-- `Number.prototype.toString` / template interpolation of an integer. -/
def intToString (n : Int) : String :=
  if n < 0 then "-" ++ jsNatToString n.natAbs else jsNatToString n.natAbs

/-- JSON string escaping of one character (`JSON.stringify`). -/
def escChar (c : Char) : List Char :=
  if c = '"' then ['\\', '"']
  else if c = '\\' then ['\\', '\\']
  else if c = '\n' then ['\\', 'n']
  else if c = '\r' then ['\\', 'r']
  else if c = '\t' then ['\\', 't']
  else [c]

def escChars : List Char → List Char
  | [] => []
  | c :: cs => escChar c ++ escChars cs

/-- JSON string escaping (`JSON.stringify` on the contents of a string). -/
def escString (s : String) : String :=
  ⟨escChars s.data⟩

mutual
/-- `JSON.stringify(·)` (single-line form, no indent argument). -/
def Json.stringify : Json → String
  | .null => "null"
  | .bool true => "true"
  | .bool false => "false"
  | .num n => intToString n
  | .str s => "\"" ++ (escString s ++ "\"")
  | .arr xs => "[" ++ (stringifyList xs ++ "]")
  | .obj fs => "\x7b" ++ (stringifyFields fs ++ "\x7d")

def stringifyList : List Json → String
  | [] => ""
  | [j] => Json.stringify j
  | j :: j2 :: rest => Json.stringify j ++ ("," ++ stringifyList (j2 :: rest))

def stringifyFields : List (String × Json) → String
  | [] => ""
  | [(k, v)] => "\"" ++ (escString k ++ ("\":" ++ Json.stringify v))
  | (k, v) :: f2 :: rest =>
      "\"" ++ (escString k ++ ("\":" ++ (Json.stringify v ++ ("," ++ stringifyFields (f2 :: rest)))))
end

mutual
/-- JS template interpolation `` `${v}` `` (ToString coercion).  Array
elements that are `null` render as `""` in JS; that corner (unused by the
handler on arrays) is approximated by the plain recursive join. -/
def jsTemplateJ : Json → String
  | .null => "null"
  | .bool true => "true"
  | .bool false => "false"
  | .num n => intToString n
  | .str s => s
  | .arr xs => jsTemplateList xs
  | .obj _ => "[object Object]"

def jsTemplateList : List Json → String
  | [] => ""
  | [j] => jsTemplateJ j
  | j :: j2 :: rest => jsTemplateJ j ++ ("," ++ jsTemplateList (j2 :: rest))
end

/-- Template interpolation of a possibly-`undefined` value. -/
def jsTemplateOpt : Option Json → String
  | none => "undefined"
  | some j => jsTemplateJ j

/-- Skip JSON whitespace. -/
def skipWs : List Char → List Char
  | [] => []
  | c :: rest =>
      if c = ' ' ∨ c = '\n' ∨ c = '\t' ∨ c = '\r' then skipWs rest else c :: rest

/-- Value of a hex digit (for `\uXXXX` escapes). -/
def hexVal (c : Char) : Option Nat :=
  if '0' ≤ c ∧ c ≤ '9' then some (c.toNat - 48)
  else if 'a' ≤ c ∧ c ≤ 'f' then some (c.toNat - 87)
  else if 'A' ≤ c ∧ c ≤ 'F' then some (c.toNat - 55)
  else none

/-- Decode a single-character JSON string escape. -/
def escDecode (c : Char) : Option Char :=
  if c = '"' then some '"'
  else if c = '\\' then some '\\'
  else if c = '/' then some '/'
  else if c = 'n' then some '\n'
  else if c = 't' then some '\t'
  else if c = 'r' then some '\r'
  else if c = 'b' then some (Char.ofNat 8)
  else if c = 'f' then some (Char.ofNat 12)
  else none

/-- Parse the remainder of a JSON string (the opening quote already
consumed); raw control characters are rejected as in `JSON.parse`. -/
def parseStrChars : Nat → List Char → Option (List Char × List Char)
  | 0, _ => none
  | _ + 1, [] => none
  | fuel + 1, c :: rest =>
      if c = '"' then some ([], rest)
      else if c = '\\' then
        match rest with
        | [] => none
        | e :: rest2 =>
          if e = 'u' then
            match rest2 with
            | h1 :: h2 :: h3 :: h4 :: rest3 =>
                match hexVal h1, hexVal h2, hexVal h3, hexVal h4 with
                | some v1, some v2, some v3, some v4 =>
                    match parseStrChars fuel rest3 with
                    | some (cs, r) => some (Char.ofNat (((v1 * 16 + v2) * 16 + v3) * 16 + v4) :: cs, r)
                    | none => none
                | _, _, _, _ => none
            | _ => none
          else
            match escDecode e with
            | some d =>
                match parseStrChars fuel rest2 with
                | some (cs, r) => some (d :: cs, r)
                | none => none
            | none => none
      else if c.toNat < 32 then none
      else
        match parseStrChars fuel rest with
        | some (cs, r) => some (c :: cs, r)
        | none => none

/-- Parse a run of decimal digits (leading-zero forms rejected as in JSON). -/
def parseDigits (l : List Char) : Option (Nat × List Char) :=
  let ds := l.takeWhile Char.isDigit
  let rest := l.dropWhile Char.isDigit
  if ds.isEmpty then none
  else if 1 < ds.length ∧ ds.headD ' ' = '0' then none
  else
    match rest with
    | r :: _ => if r = '.' ∨ r = 'e' ∨ r = 'E' then none
        else some (ds.foldl (fun a c => a * 10 + (c.toNat - 48)) 0, rest)
    | [] => some (ds.foldl (fun a c => a * 10 + (c.toNat - 48)) 0, rest)

/-- Build the object from its parsed key/value pairs in source order,
assigning each with JS property-assignment semantics (`setFields`):
a duplicate key keeps its first position but its *last* value, as
`JSON.parse` does. -/
def objFromPairs (fs : List (String × Json)) : List (String × Json) :=
  fs.foldl (fun a kv => setFields a kv.1 kv.2) []

mutual
/-- `JSON.parse`, recursive descent with fuel (fuel is ample at the top
entry point and only bounds nesting); the subset parsed is full JSON with
integer numerals (fractional/exponent numerals are out of the modelled
fragment). -/
def parseVal : Nat → List Char → Option (Json × List Char)
  | 0, _ => none
  | fuel + 1, l =>
      match skipWs l with
      | [] => none
      | c :: rest =>
          if c = 'n' then
            if listStartsWith ['u', 'l', 'l'] rest then some (.null, rest.drop 3) else none
          else if c = 't' then
            if listStartsWith ['r', 'u', 'e'] rest then some (.bool true, rest.drop 3) else none
          else if c = 'f' then
            if listStartsWith ['a', 'l', 's', 'e'] rest then some (.bool false, rest.drop 4) else none
          else if c = '"' then
            match parseStrChars fuel rest with
            | some (cs, r) => some (.str ⟨cs⟩, r)
            | none => none
          else if c = '-' then
            match parseDigits rest with
            | some (n, r) => some (.num (-(n : Int)), r)
            | none => none
          else if c.isDigit then
            match parseDigits (c :: rest) with
            | some (n, r) => some (.num (n : Int), r)
            | none => none
          else if c = '[' then
            match parseElems fuel rest with
            | some (xs, r) => some (.arr xs, r)
            | none => none
          else if c = '\x7b' then
            match parseFields fuel rest with
            | some (fs, r) => some (.obj (objFromPairs fs), r)
            | none => none
          else none

def parseElems : Nat → List Char → Option (List Json × List Char)
  | 0, _ => none
  | fuel + 1, l =>
      match skipWs l with
      | ']' :: rest => some ([], rest)
      | l2 => parseMoreElems fuel l2

def parseMoreElems : Nat → List Char → Option (List Json × List Char)
  | 0, _ => none
  | fuel + 1, l =>
      match parseVal fuel l with
      | none => none
      | some (v, r) =>
          match skipWs r with
          | ',' :: r2 =>
              match parseMoreElems fuel r2 with
              | some (vs, rest) => some (v :: vs, rest)
              | none => none
          | ']' :: r2 => some ([v], r2)
          | _ => none

def parseFields : Nat → List Char → Option (List (String × Json) × List Char)
  | 0, _ => none
  | fuel + 1, l =>
      match skipWs l with
      | '\x7d' :: rest => some ([], rest)
      | l2 => parseMoreFields fuel l2

def parseMoreFields : Nat → List Char → Option (List (String × Json) × List Char)
  | 0, _ => none
  | fuel + 1, l =>
      match skipWs l with
      | '"' :: rest =>
          match parseStrChars fuel rest with
          | none => none
          | some (kcs, r) =>
              match skipWs r with
              | ':' :: r2 =>
                  match parseVal fuel r2 with
                  | none => none
                  | some (v, r3) =>
                      match skipWs r3 with
                      | ',' :: r4 =>
                          match parseMoreFields fuel r4 with
                          | some (fs, rest) => some ((⟨kcs⟩, v) :: fs, rest)
                          | none => none
                      | '\x7d' :: r4 => some ([(⟨kcs⟩, v)], r4)
                      | _ => none
              | _ => none
      | _ => none
end

/-- `JSON.parse(s)`: `none` models the `SyntaxError` throw. -/
def Json.parse (s : String) : Option Json :=
  match parseVal (8 * (s.length + 1)) s.data with
  | some (j, rest) => if (skipWs rest).isEmpty then some j else none
  | none => none

/-- Incoming HTTP event: the header fields the handlers read (both header
casings, as in `event.headers?.origin || event.headers?.Origin`), plus the
`Authorization` header (which, as proved below, the handlers never read)
and the raw body. -/
structure Event where
  origin : Option String
  originCap : Option String
  accept : Option String
  acceptCap : Option String
  authorization : Option String
  body : Option String
deriving Repr, DecidableEq

/-- Outgoing Lambda-style HTTP response. -/
structure HttpResponse where
  statusCode : Nat
  headers : List (String × String)
  body : String
deriving Repr, DecidableEq

/-- Ambient effects: `Date.now()` (ms), the serialization of `new Date()`
stored into created documents, and the `uuidv4()` supply in call order. -/
structure Env where
  nowMs : Nat
  nowIso : String
  uuid : Nat → String

/-- The documents passed to `ContentItems.create`, in call order. -/
abbrev Store := List Json

/-- Abstract content-repository collaborator (`ContentItems` / mongoose):
connection outcome, the saved document resolved by `ContentItems.create`,
and the payloads of the read-only tool/resource queries.  `.error` models a
rejected promise (a JS throw at the `await`). -/
structure Repo where
  connectOk : Except String Unit
  saveResult : Json → Store → Except String Json
  getExercises : Option Json → Except String Json
  getExerciseById : Option Json → Except String Json
  searchExercises : Option Json → Except String Json
  allExercisesResource : Except String Json
  categoriesResource : Except String Json
  statsResource : Except String Json

/-- `ContentItems.create(doc)`: on success the document is appended to the
store and the repository's saved document is returned. -/
def repoCreate (repo : Repo) (doc : Json) (store : Store) : Except String (Json × Store) :=
  match repo.saveResult doc store with
  | .ok saved => .ok (saved, store ++ [doc])
  | .error e => .error e

/-- The allow-list in `validateOrigin` (source lines 314-318). -/
def allowedOrigins : List String :=
  ["https://your-domain.com", "https://claude.ai"]

/-- `validateOrigin` (source lines 300-321): absent (or falsy) origin and
localhost origins are allowed, anything else iff on the allow-list. -/
def validateOrigin : Option String → Bool
  | none => true
  | some s =>
      if s = "" then true
      else if jsIncludes s "localhost" || jsIncludes s "127.0.0.1" then true
      else allowedOrigins.contains s

/-- `headers?.origin || headers?.Origin`. -/
def originOf (e : Event) : Option String :=
  jsOrStr e.origin e.originCap

/-- `headers?.accept || headers?.Accept || ''`. -/
def acceptOf (e : Event) : String :=
  match jsOrStr e.accept e.acceptCap with
  | some s => s
  | none => ""

/-- `formatSSEMessage` (source lines 996-1002): `id:` line only when `id`
is truthy, `event:` line only when `event` is a non-empty string, then the
`data:` line and the blank frame terminator. -/
def formatSSEMessage (data : Json) (event : String) (id : Option Json) : String :=
  (if truthyOpt id then "id: " ++ (jsTemplateOpt id ++ "\n") else "") ++
    ((if event ≠ "" then "event: " ++ (event ++ "\n") else "") ++
      ("data: " ++ (data.stringify ++ "\n\n")))

/-- JS `\s` whitespace (the characters relevant to the handler). -/
def isWsChar (c : Char) : Bool :=
  c = ' ' ∨ c = '\t' ∨ c = '\n' ∨ c = '\r' ∨ c = Char.ofNat 11 ∨ c = Char.ofNat 12

theorem dropWhileLenLe (p : Char → Bool) : ∀ l : List Char, (l.dropWhile p).length ≤ l.length
  | [] => by simp [List.dropWhile]
  | c :: rest => by
      simp only [List.dropWhile]
      split
      · exact Nat.le_trans (dropWhileLenLe p rest) (Nat.le_succ _)
      · exact Nat.le_refl _

/-- Replace each maximal run of characters satisfying `p` by `rep`
(models `replace(/p+/g, rep)`). -/
def collapseRuns (p : Char → Bool) (rep : Char) : List Char → List Char
  | [] => []
  | c :: rest =>
      if p c then rep :: collapseRuns p rep (rest.dropWhile p)
      else c :: collapseRuns p rep rest
termination_by l => l.length
decreasing_by
  · have := dropWhileLenLe p rest
    simp only [List.length_cons]
    omega
  · simp only [List.length_cons]
    omega

/-- `String.prototype.trim` (both ends; the `'-'` argument passed in the
source is ignored by JS `trim`, which strips whitespace only). -/
def trimWs (l : List Char) : List Char :=
  ((l.dropWhile isWsChar).reverse.dropWhile isWsChar).reverse

/-- `generateSlug` (source lines 748-755): lower-case, strip characters
outside `[a-z0-9\s-]`, collapse whitespace runs to `-`, collapse `-` runs,
then `trim`. -/
def generateSlug (title : String) : String :=
  let lowered := title.data.map Char.toLower
  let cleaned := lowered.filter fun c =>
    (('a' ≤ c ∧ c ≤ 'z') ∨ ('0' ≤ c ∧ c ≤ '9') ∨ isWsChar c ∨ c = '-' : Bool)
  let dashed := collapseRuns isWsChar '-' cleaned
  let collapsed := collapseRuns (fun c => c = '-') '-' dashed
  ⟨trimWs collapsed⟩

/-- `createLocaleArray` (source lines 758-769); `title`/`summary`/
`description` may be `undefined`, in which case the key is omitted (see the
module conventions). -/
def createLocaleArray (title summary description : Option Json) (language : String) : Json :=
  .arr [.obj ([("language_iso", .str language)] ++
    optField "title" title ++ optField "summary" summary ++
    optField "description" description ++
    [("seo_title", .null), ("seo_summary", .null), ("seo_description", .null),
     ("specify_seo_values", .bool false)])]

/-- The repeated per-theme zero-score literal in `createDefaultContentItem`
(the source spells it out five times verbatim). -/
def themeScores : List (String × Json) :=
  [("baseplay_theme_base", .num 0), ("baseplay_theme_one", .num 0),
   ("baseplay_theme_two", .num 0), ("baseplay_theme_three", .num 0),
   ("baseplay_theme_four", .num 0)]

/-- `createDefaultContentItem` (source lines 772-844).  `uuidv4()` is the
supplied `uuid`; the `new Date()` values are modelled by their
serialization `env.nowIso`. -/
def createDefaultContentItem (env : Env) (uuid : String) (itemType : String) : Json :=
  .obj [
    ("_id", .str uuid),
    ("item_type", .str itemType),
    ("content_type", .str itemType),
    ("media", .arr []),
    ("content", .obj [("src", .null), ("extension", .null), ("text", .null),
      ("quality", .null), ("size", .null), ("size_unit", .null)]),
    ("settings", .obj [("is_exclusive", .bool false), ("is_premium", .bool false),
      ("allowed_domains", .arr []), ("excluded_domains", .arr []),
      ("excluded_countries_iso", .arr []), ("excluded_network_endpoints", .arr []),
      ("age_rating", .str "PG")]),
    ("social_stats", .obj [("likes", .num 0), ("comments", .num 0),
      ("views", .num 0), ("rating", .num 0)]),
    ("top_comments", .arr [.obj [("id", .null), ("user_id", .null),
      ("commentor_name", .null), ("comment", .null), ("parent_id", .null),
      ("ancestor_ids", .arr []), ("created_at", .null)]]),
    ("collections", .arr []),
    ("is_indexed", .bool true),
    ("locks", .obj [("is_locked_for_editing", .bool false), ("current_editor", .null),
      ("is_locked_for_moderation_process", .bool false),
      ("is_locked_for_backend_process", .bool false), ("current_backend_process", .null)]),
    ("internal_meta", .obj [("rating", .num 5), ("tags", .arr [])]),
    ("language", .str "en"),
    ("published_at", .str env.nowIso),
    ("collection_type", .str itemType),
    ("is_featured", .bool false),
    ("is_spotlight", .bool false),
    ("contents", .arr []),
    ("created_at", .str env.nowIso),
    ("updated_at", .str env.nowIso),
    ("__v", .num 0),
    ("curation_scores", .obj [("usage", .num 0), ("recent_usage", .num 0),
      ("os", .obj [("android", .num 0), ("ios", .num 0), ("windows", .num 0), ("mac", .num 0)]),
      ("featured", .obj themeScores), ("trending", .obj themeScores),
      ("spotlight", .obj themeScores), ("topten", .obj themeScores),
      ("topics", .obj themeScores)])]

def digitsVal (ds : List Char) : Nat :=
  ds.foldl (fun a c => a * 10 + (c.toNat - 48)) 0

/-- `Number(s)` restricted to integer numerals (`none` is `NaN`; fractional
numeric strings, unused by the handler, are out of the modelled fragment). -/
def strToIntJS (s : String) : Option Int :=
  match trimWs s.data with
  | [] => some 0
  | '-' :: ds => if ds ≠ [] ∧ ds.all Char.isDigit then some (-(digitsVal ds : Int)) else none
  | ds => if ds.all Char.isDigit then some ((digitsVal ds : Int)) else none

/-- JS numeric coercion of a possibly-`undefined` value for the relational
operators (`none` is `NaN`; arrays/objects, which JS would coerce through
`toString`, are approximated as `NaN` — no claim exercises them). -/
def toNumJS : Option Json → Option Int
  | none => none
  | some .null => some 0
  | some (.bool b) => some (if b then 1 else 0)
  | some (.num n) => some n
  | some (.str s) => strToIntJS s
  | some (.arr _) => none
  | some (.obj _) => none

/-- `a >= n` with JS coercion (`NaN` compares false). -/
def jsGE (a : Option Json) (n : Int) : Bool :=
  match toNumJS a with
  | some v => decide (n ≤ v)
  | none => false

/-- `a < n` with JS coercion (`NaN` compares false). -/
def jsLT (a : Option Json) (n : Int) : Bool :=
  match toNumJS a with
  | some v => decide (v < n)
  | none => false

/-- The `program_schedule` validation loop of `createWorkoutProgram`
(source lines 865-869): the first failing entry wins.  Reading
`scheduleItem.workout_index` on a `null` entry throws the TypeError of
line 866 before any range test; otherwise an out-of-range index throws
the validation message. -/
def cwpScheduleLoop (len : Int) : List Json → Option String
  | [] => none
  | item :: rest =>
      if item = .null then
        some "Cannot read properties of null (reading \x27workout_index\x27)"
      else if jsGE (item.get "workout_index") len || jsLT (item.get "workout_index") 0 then
        some ("Invalid workout_index " ++ (jsTemplateOpt (item.get "workout_index") ++
          (" in program_schedule. Must be between 0 and " ++ intToString (len - 1))))
      else cwpScheduleLoop len rest

def Json.isArr : Json → Bool
  | .arr _ => true
  | _ => false

/-- The validation sequence of `createWorkoutProgram` (source lines
851-869), returning the message of the first `throw`, else `none`. -/
def cwpValidationError (args : Json) : Option String :=
  if ¬ truthyOpt (args.get "program") ∨ ¬ truthyOpt (args.get "workouts")
      ∨ ¬ truthyOpt (args.get "program_schedule") then
    some "Missing required fields: program, workouts, and program_schedule are required"
  else if (match args.get "workouts" with
           | some (.arr ws) => ws.isEmpty
           | _ => true : Bool) then
    some "At least one workout is required"
  else if (match args.get "program_schedule" with
           | some (.arr ss) => ss.isEmpty
           | _ => true : Bool) then
    some "Program schedule is required"
  else
    match args.get "workouts", args.get "program_schedule" with
    | some (.arr ws), some (.arr ss) => cwpScheduleLoop (ws.length : Int) ss
    | _, _ => none

/-- `workout.slug || this.generateSlug(workout.title)`, second operand:
`generateSlug` first calls `title.toLowerCase()` (source line 750), which
throws the property-read TypeError on an undefined or null `title` and
the not-a-function TypeError on any other non-string. -/
def slugFromTitle (src : Json) : Except String Json :=
  match src.get "title" with
  | some (.str t) => .ok (.str (generateSlug t))
  | none => .error "Cannot read properties of undefined (reading \x27toLowerCase\x27)"
  | some .null => .error "Cannot read properties of null (reading \x27toLowerCase\x27)"
  | _ => .error "title.toLowerCase is not a function"

/-- Assignment of a possibly-`undefined` value (key omitted on `undefined`,
see the module conventions). -/
def Json.setFieldOpt (j : Json) (k : String) : Option Json → Json
  | some v => j.setField k v
  | none => j

/-- `item.medium || item.easy || item.hard || 0` (source line 902): the
first property read throws a TypeError when the item is `null`. -/
def itemDuration (item : Json) : Except String Json :=
  if item = .null then .error "Cannot read properties of null (reading \x27medium\x27)"
  else .ok (jsOrJ (item.get "medium") (jsOrJ (item.get "easy") (jsOrJ (item.get "hard") (.num 0))))

/-- JS `+` for the accumulations reachable from source line 902 (numeric
addition; string concatenation otherwise; boolean/null coerce numerically). -/
def jsPlus : Json → Json → Json
  | .num x, .num y => .num (x + y)
  | .num x, .bool yb => .num (x + (if yb then 1 else 0))
  | .num x, .null => .num x
  | a, b => .str (jsTemplateJ a ++ jsTemplateJ b)

/-- Inner item loop of the duration calculation (source lines 900-904):
the running `(totalDuration, exerciseCount)` pair; a `null` item throws
out of the loop. -/
def sumItems : (Json × Int) → List Json → Except String (Json × Int)
  | acc, [] => .ok acc
  | acc, it :: rest =>
      match itemDuration it with
      | .error e => .error e
      | .ok d => sumItems (jsPlus acc.1 d, acc.2 + 1) rest

/-- The values `for...of` iterates: an array elementwise, a string
characterwise (each character a one-character string). -/
def charsToJson (s : String) : List Json :=
  s.data.map fun c => Json.str (String.mk [c])

/-- Section loop of the duration calculation (source lines 898-906):
reading `.items` on a `null` section throws (line 899); sections whose
`items` is falsy are skipped; `for...of` over a truthy `items` iterates
an array elementwise, a string characterwise, and throws on any other
value. -/
def sumSections : (Json × Int) → List Json → Except String (Json × Int)
  | acc, [] => .ok acc
  | acc, sec :: rest =>
      if sec = .null then .error "Cannot read properties of null (reading \x27items\x27)"
      else
        match sec.get "items" with
        | some v =>
            if v.truthy then
              match (match v with
                     | .arr its => some its
                     | .str s => some (charsToJson s)
                     | _ => none) with
              | some its =>
                  (match sumItems acc its with
                   | .error e => .error e
                   | .ok acc2 => sumSections acc2 rest)
              | none => .error "section.items is not iterable"
            else sumSections acc rest
        | none => sumSections acc rest

/-- Fields set identically on workout and program documents (source lines
885-890 and 924-929): `slug`, `locale`, `creator`, `categories`,
`settings.is_premium`, `content_metadata`. -/
def applyCommonItemFields (src : Json) (doc : Json) : Except String Json :=
  match (match src.get "slug" with
    | some v => if v.truthy then Except.ok v else slugFromTitle src
    | none => slugFromTitle src) with
  | .error e => .error e
  | .ok slugVal =>
      let d1 := doc.setField "slug" slugVal
      let d2 := d1.setField "locale"
        (createLocaleArray (src.get "title") (src.get "summary") (src.get "description") "en")
      let d3 := d2.setFieldOpt "creator" (src.get "creator")
      let d4 := d3.setField "categories" (jsOrJ (src.get "categories") (.arr []))
      let d5 := (match d4.get "settings" with
        | some st => d4.setField "settings"
            (st.setField "is_premium" (jsOrJ (src.get "is_premium") (.bool false)))
        | none => d4)
      .ok (d5.setField "content_metadata" (jsOrJ (src.get "content_metadata") (.obj [])))

/-- One iteration of the workout-creation loop before `ContentItems.create`
(source lines 879-910): the `console.log` template of line 879 reads
`workout.title` first (throwing on a `null` workout), then the default
document, common fields, `sections`, and the total-duration/exercise-count
calculation guarded by
`!workoutDoc.content_metadata.total_duration && workout.sections` —
whose `for...of` iterates a truthy `workout.sections` array elementwise,
string characterwise, and throws otherwise. -/
def buildWorkoutDoc (env : Env) (uuid : String) (workout : Json) : Except String Json :=
  if workout = .null then .error "Cannot read properties of null (reading \x27title\x27)"
  else
  match applyCommonItemFields workout (createDefaultContentItem env uuid "workouts") with
  | .error e => .error e
  | .ok doc1 =>
      let cm := jsOrJ (workout.get "content_metadata") (.obj [])
      let doc := doc1.setField "sections" (jsOrJ (workout.get "sections") (.arr []))
      if ¬ truthyOpt (cm.get "total_duration") ∧ truthyOpt (workout.get "sections") then
        match (match workout.get "sections" with
               | some (.arr ss) => some ss
               | some (.str s) => some (charsToJson s)
               | _ => none) with
        | some ss =>
            (match sumSections (Json.num 0, 0) ss with
             | .error e => .error e
             | .ok td => .ok (doc.setField "content_metadata"
                 ((cm.setField "total_duration" td.1).setField "exercise_count" (.num td.2))))
        | none => .error "workout.sections is not iterable"
      else .ok doc

/-- Step 1 of `createWorkoutProgram` (source lines 874-916): create the
workout documents in order, accumulating the saved documents; a failure
stops the sequence with the documents created so far left in the store. -/
def cwpWorkoutsLoop (env : Env) (repo : Repo) :
    List Json → Nat → List Json → Store → (Except String (List Json) × Store)
  | [], _, created, store => (.ok created, store)
  | w :: rest, i, created, store =>
      match buildWorkoutDoc env (env.uuid i) w with
      | .error e => (.error e, store)
      | .ok doc =>
          match repoCreate repo doc store with
          | .error e => (.error e, store)
          | .ok (saved, store2) => cwpWorkoutsLoop env repo rest (i + 1) (created ++ [saved]) store2

/-- `createdWorkouts[scheduleItem.workout_index]` (source line 933):
numeric in-range index selects, everything else is `undefined`
(canonical numeric string keys, unused by claims, are not modelled). -/
def lookupIdx (l : List Json) : Option Json → Option Json
  | some (.num n) => if 0 ≤ n ∧ n < (l.length : Int) then l.get? n.toNat else none
  | _ => none

/-- `program_schedule.map(...)` building the program `sections` (source
lines 932-939); a `null` schedule item makes the `workout_index` read of
line 933 throw (unreachable after validation), and an out-of-range index
makes the `workout.content_metadata` read throw. -/
def programSections (createdWorkouts : List Json) : List Json → Except String (List Json)
  | [] => .ok []
  | .null :: _ => .error "Cannot read properties of null (reading \x27workout_index\x27)"
  | item :: rest => do
      let w ← (match lookupIdx createdWorkouts (item.get "workout_index") with
        | some w => Except.ok w
        | none => Except.error "Cannot read properties of undefined (reading \x27content_metadata\x27)")
      let duration := jsOrJ (match w.get "content_metadata" with
        | some .null => none
        | some cm => cm.get "total_duration"
        | none => none) (.num 0)
      let entry : Json := .obj (optField "day" (item.get "day") ++
        [("duration", duration)] ++ optField "workout" (w.get "_id"))
      let restEntries ← programSections createdWorkouts rest
      return entry :: restEntries

/-- Success payload of `createWorkoutProgram` (source lines 946-969); the
`JSON.stringify(·, null, 2)` pretty-printing of the text block is modelled
without the indentation whitespace (no verified property reads it). -/
def cwpSuccessResult (p : Json) (ws createdWorkouts sections : List Json) (savedProgram : Json) : Json :=
  let payload : Json := .obj [
    ("success", .bool true),
    ("program", .obj (optField "id" (savedProgram.get "_id") ++
      optField "title" (p.get "title") ++ optField "slug" (savedProgram.get "slug") ++
      optField "created_at" (savedProgram.get "created_at"))),
    ("workouts", .arr ((createdWorkouts.zip ws).map fun sw =>
      .obj (optField "id" (sw.1.get "_id") ++ optField "title" (sw.2.get "title") ++
        optField "slug" (sw.1.get "slug") ++ optField "created_at" (sw.1.get "created_at")))),
    ("schedule", .arr sections),
    ("message", .str ("Successfully created workout program \x27" ++
      (jsTemplateOpt (p.get "title") ++ ("\x27 with " ++
        (intToString createdWorkouts.length ++ " workouts")))))]
  .obj [("content", .arr [.obj [("type", .str "text"), ("text", .str payload.stringify)]])]

/-- The `try` block of `createWorkoutProgram` (source lines 871-975):
workouts first, then the program document referencing them. -/
def cwpCreate (env : Env) (repo : Repo) (argsJ : Json) (store : Store) :
    Except String Json × Store :=
  match argsJ.get "workouts", argsJ.get "program" with
  | some (.arr ws), some p =>
      match cwpWorkoutsLoop env repo ws 0 [] store with
      | (.error e, store2) => (.error e, store2)
      | (.ok createdWorkouts, store2) =>
          let doc0 := createDefaultContentItem env (env.uuid ws.length) "workout-program"
          match applyCommonItemFields p doc0 with
          | .error e => (.error e, store2)
          | .ok progBase =>
              match argsJ.get "program_schedule" with
              | some (.arr ss) =>
                  (match programSections createdWorkouts ss with
                   | .error e => (.error e, store2)
                   | .ok sections =>
                       let progDoc := progBase.setField "sections" (.arr sections)
                       match repoCreate repo progDoc store2 with
                       | .error e => (.error e, store2)
                       | .ok (savedProgram, store3) =>
                           (.ok (cwpSuccessResult p ws createdWorkouts sections savedProgram), store3))
              | _ => (.error "program_schedule is not an array", store2)
  | _, _ => (.error "workouts is not an array", store)

/-- `createWorkoutProgram` (source lines 846-975): destructuring, the
validation `throw`s (outside the `try`, hence unwrapped), then the `try`
block whose failures are rethrown as
`Failed to create workout program: <msg>`. -/
def createWorkoutProgram (env : Env) (repo : Repo) (args : Option Json) (store : Store) :
    Except String Json × Store :=
  match args with
  | none => (.error "Cannot destructure property \x27program\x27 of \x27args\x27 as it is undefined.", store)
  | some .null => (.error "Cannot destructure property \x27program\x27 of \x27args\x27 as it is null.", store)
  | some argsJ =>
      match cwpValidationError argsJ with
      | some msg => (.error msg, store)
      | none =>
          match cwpCreate env repo argsJ store with
          | (.error e, store2) => (.error ("Failed to create workout program: " ++ e), store2)
          | ok => ok

/-- The `catch` payload of `handleToolCall` (source lines 1023-1033). -/
def toolErrorResult (msg : String) : Json :=
  .obj [("content", .arr [.obj [("type", .str "text"), ("text", .str ("Error: " ++ msg))]]),
        ("isError", .bool true)]

/-- `handleToolCall` (source lines 1005-1034): destructure `params`
(throwing past the `try` when `params` is undefined/null), connect, switch
on the tool name; every throw inside the `try` becomes an
`isError: true` result. -/
def handleToolCall (env : Env) (repo : Repo) (params : Option Json) (store : Store) :
    Except String (Json × Store) :=
  match params with
  | none => .error "Cannot destructure property \x27name\x27 of \x27params\x27 as it is undefined."
  | some .null => .error "Cannot destructure property \x27name\x27 of \x27params\x27 as it is null."
  | some p =>
      let name := p.get "name"
      let args := p.get "arguments"
      let inner : Except String Json × Store :=
        match repo.connectOk with
        | .error e => (.error e, store)
        | .ok _ =>
            match name with
            | some (.str "get_exercises") => (repo.getExercises args, store)
            | some (.str "get_exercise_by_id") => (repo.getExerciseById args, store)
            | some (.str "search_exercises") => (repo.searchExercises args, store)
            | some (.str "create_workout_program") => createWorkoutProgram env repo args store
            | _ => (.error ("Unknown tool: " ++ jsTemplateOpt name), store)
      match inner with
      | (.ok res, st) => .ok (res, st)
      | (.error msg, st) => .ok (toolErrorResult msg, st)

/-- The `catch` payload of `handleResourceRead` (source lines 1053-1063). -/
def resourceErrorResult (uri : Option Json) (msg : String) : Json :=
  .obj [("contents", .arr [.obj (optField "uri" uri ++
    [("mimeType", .str "text/plain"), ("text", .str ("Error: " ++ msg))])])]

/-- `handleResourceRead` (source lines 1037-1064). -/
def handleResourceRead (repo : Repo) (params : Option Json) : Except String Json :=
  match params with
  | none => .error "Cannot destructure property \x27uri\x27 of \x27params\x27 as it is undefined."
  | some .null => .error "Cannot destructure property \x27uri\x27 of \x27params\x27 as it is null."
  | some p =>
      let uri := p.get "uri"
      let inner : Except String Json :=
        match repo.connectOk with
        | .error e => .error e
        | .ok _ =>
            match uri with
            | some (.str "exercise://exercises") => repo.allExercisesResource
            | some (.str "exercise://categories") => repo.categoriesResource
            | some (.str "exercise://stats") => repo.statsResource
            | _ => .error ("Unknown resource: " ++ jsTemplateOpt uri)
      match inner with
      | .ok res => .ok res
      | .error msg => .ok (resourceErrorResult uri msg)

/-- JSON-RPC success envelope `{jsonrpc, id, result}` (the `id` key is
omitted when the request had none, as `JSON.stringify` does for
`undefined`). -/
def rpcResult (id : Option Json) (result : Json) : Json :=
  .obj ([("jsonrpc", .str "2.0")] ++ optField "id" id ++ [("result", result)])

/-- JSON-RPC error envelope `{jsonrpc, id, error: {code, message, data}}`. -/
def rpcError (id : Option Json) (code : Int) (message : String) (data : Json) : Json :=
  .obj ([("jsonrpc", .str "2.0")] ++ optField "id" id ++
    [("error", .obj [("code", .num code), ("message", .str message), ("data", data)])])

/-- The `initialize` result literal (source lines 1127-1139). -/
def initializeResult : Json :=
  .obj [("protocolVersion", .str "2025-06-18"),
        ("capabilities", .obj [("tools", .obj []), ("resources", .obj []),
          ("prompts", .obj []), ("logging", .obj [])]),
        ("serverInfo", .obj [("name", .str "ms-exercise-mcp"), ("version", .str "1.0.0")])]

/-- The `tools/list` result literal (source lines 1148-1287). -/
def toolsListResult : Json :=
  .obj [("tools", .arr [
    .obj [("name", .str "get_exercises"),
      ("description", .str "Retrieve exercises from the database with optional filtering"),
      ("inputSchema", .obj [("type", .str "object"), ("properties", .obj [
        ("limit", .obj [("type", .str "number"),
          ("description", .str "Maximum number of exercises to return (default: 10)"),
          ("default", .num 10)]),
        ("skip", .obj [("type", .str "number"),
          ("description", .str "Number of exercises to skip for pagination (default: 0)"),
          ("default", .num 0)]),
        ("category", .obj [("type", .str "string"),
          ("description", .str "Filter by exercise category")]),
        ("search", .obj [("type", .str "string"),
          ("description", .str "Search exercises by title or content")])])])],
    .obj [("name", .str "get_exercise_by_id"),
      ("description", .str "Retrieve a specific exercise by its ID"),
      ("inputSchema", .obj [("type", .str "object"), ("properties", .obj [
        ("id", .obj [("type", .str "string"),
          ("description", .str "The exercise ID to retrieve"), ("required", .bool true)])]),
        ("required", .arr [.str "id"])])],
    .obj [("name", .str "search_exercises"),
      ("description", .str "Search exercises with advanced filtering options"),
      ("inputSchema", .obj [("type", .str "object"), ("properties", .obj [
        ("query", .obj [("type", .str "string"),
          ("description", .str "Search query for exercise content")]),
        ("categories", .obj [("type", .str "array"), ("items", .obj [("type", .str "string")]),
          ("description", .str "Array of category IDs to filter by")]),
        ("difficulty", .obj [("type", .str "string"),
          ("description", .str "Filter by difficulty level")]),
        ("duration", .obj [("type", .str "object"), ("properties", .obj [
            ("min", .obj [("type", .str "number")]), ("max", .obj [("type", .str "number")])]),
          ("description", .str "Filter by exercise duration range")])])])],
    .obj [("name", .str "create_workout_program"),
      ("description", .str "Create a workout program with multiple workouts in the database"),
      ("inputSchema", .obj [("type", .str "object"), ("properties", .obj [
        ("program", .obj [("type", .str "object"), ("properties", .obj [
            ("title", .obj [("type", .str "string"), ("description", .str "Program title")]),
            ("summary", .obj [("type", .str "string"), ("description", .str "Program summary")]),
            ("description", .obj [("type", .str "string"), ("description", .str "Program description")]),
            ("slug", .obj [("type", .str "string"),
              ("description", .str "URL-friendly slug (optional, will be generated if not provided)")]),
            ("categories", .obj [("type", .str "array"), ("items", .obj [("type", .str "string")]),
              ("description", .str "Array of category IDs")]),
            ("creator", .obj [("type", .str "string"), ("description", .str "Creator user ID")]),
            ("is_premium", .obj [("type", .str "boolean"),
              ("description", .str "Whether the program is premium"), ("default", .bool false)]),
            ("content_metadata", .obj [("type", .str "object"), ("properties", .obj [
              ("duration_weeks", .obj [("type", .str "string"),
                ("description", .str "Program duration in weeks")]),
              ("frequency", .obj [("type", .str "string"),
                ("description", .str "Workouts per week")]),
              ("difficulty", .obj [("type", .str "string"),
                ("description", .str "Program difficulty level")]),
              ("workout_type", .obj [("type", .str "string"),
                ("description", .str "Type of workout program")])])])]),
          ("required", .arr [.str "title", .str "summary", .str "description", .str "creator"])]),
        ("workouts", .obj [("type", .str "array"), ("items", .obj [
            ("type", .str "object"), ("properties", .obj [
              ("title", .obj [("type", .str "string"), ("description", .str "Workout title")]),
              ("summary", .obj [("type", .str "string"), ("description", .str "Workout summary")]),
              ("description", .obj [("type", .str "string"), ("description", .str "Workout description")]),
              ("slug", .obj [("type", .str "string"),
                ("description", .str "URL-friendly slug (optional, will be generated if not provided)")]),
              ("categories", .obj [("type", .str "array"), ("items", .obj [("type", .str "string")]),
                ("description", .str "Array of category IDs")]),
              ("creator", .obj [("type", .str "string"), ("description", .str "Creator user ID")]),
              ("is_premium", .obj [("type", .str "boolean"),
                ("description", .str "Whether the workout is premium"), ("default", .bool false)]),
              ("content_metadata", .obj [("type", .str "object"), ("properties", .obj [
                ("difficulty", .obj [("type", .str "string"),
                  ("description", .str "Workout difficulty level")]),
                ("calories_burned", .obj [("type", .str "string"),
                  ("description", .str "Estimated calories burned")]),
                ("location", .obj [("type", .str "string"),
                  ("description", .str "Workout location (e.g., home, gym)")]),
                ("workout_type", .obj [("type", .str "string"),
                  ("description", .str "Type of workout")]),
                ("total_duration", .obj [("type", .str "number"),
                  ("description", .str "Total workout duration in seconds")]),
                ("exercise_count", .obj [("type", .str "number"),
                  ("description", .str "Number of exercises in workout")])])]),
              ("sections", .obj [("type", .str "array"), ("items", .obj [
                  ("type", .str "object"), ("properties", .obj [
                    ("label", .obj [("type", .str "string"), ("description", .str "Section label")]),
                    ("position", .obj [("type", .str "number"), ("description", .str "Section position")]),
                    ("items", .obj [("type", .str "array"), ("items", .obj [
                        ("type", .str "object"), ("properties", .obj [
                          ("_id", .obj [("type", .str "string"), ("description", .str "Exercise ID")]),
                          ("position", .obj [("type", .str "number"), ("description", .str "Exercise position")]),
                          ("easy", .obj [("type", .str "number"),
                            ("description", .str "Duration for easy difficulty")]),
                          ("medium", .obj [("type", .str "number"),
                            ("description", .str "Duration for medium difficulty")]),
                          ("hard", .obj [("type", .str "number"),
                            ("description", .str "Duration for hard difficulty")])]),
                        ("required", .arr [.str "_id", .str "position", .str "easy",
                          .str "medium", .str "hard"])])]),
                    ("rest", .obj [("type", .str "string"),
                      ("description", .str "Rest time between exercises")]),
                    ("reps", .obj [("type", .str "string"),
                      ("description", .str "Number of repetitions")])]),
                  ("required", .arr [.str "label", .str "position", .str "items"])])])]),
            ("required", .arr [.str "title", .str "summary", .str "description",
              .str "creator", .str "sections"])]),
          ("description", .str "Array of workouts to create")]),
        ("program_schedule", .obj [("type", .str "array"), ("items", .obj [
            ("type", .str "object"), ("properties", .obj [
              ("day", .obj [("type", .str "number"),
                ("description", .str "Day number in the program")]),
              ("workout_index", .obj [("type", .str "number"),
                ("description", .str "Index of the workout in the workouts array")])]),
            ("required", .arr [.str "day", .str "workout_index"])]),
          ("description", .str "Schedule mapping days to workout indices")])]),
        ("required", .arr [.str "program", .str "workouts", .str "program_schedule"])])]])]

/-- The `resources/list` result literal (source lines 1296-1317). -/
def resourcesListResult : Json :=
  .obj [("resources", .arr [
    .obj [("uri", .str "exercise://exercises"), ("name", .str "All Exercises"),
      ("description", .str "Complete list of all published exercises"),
      ("mimeType", .str "application/json")],
    .obj [("uri", .str "exercise://categories"), ("name", .str "Exercise Categories"),
      ("description", .str "List of all exercise categories"),
      ("mimeType", .str "application/json")],
    .obj [("uri", .str "exercise://stats"), ("name", .str "Exercise Statistics"),
      ("description", .str "Statistics about exercises in the database"),
      ("mimeType", .str "application/json")]])]

/-- The method names of the `preferJSON` list (source line 1374). -/
def knownMethods : List Json :=
  [.str "initialize", .str "tools/list", .str "resources/list",
   .str "tools/call", .str "resources/read"]

/-- The `switch (mcpMessage.method)` of `mcpPost` (source lines 1121-1368):
produces the JSON-RPC response; `.error` is an exception escaping to the
outer `catch` (only the unguarded `resources/read` destructure can). -/
def dispatchMessage (env : Env) (repo : Repo) (msg : Json) (store : Store) :
    Except String (Json × Store) :=
  let id := msg.get "id"
  match msg.get "method" with
  | some (.str "initialize") => .ok (rpcResult id initializeResult, store)
  | some (.str "tools/list") => .ok (rpcResult id toolsListResult, store)
  | some (.str "resources/list") => .ok (rpcResult id resourcesListResult, store)
  | some (.str "tools/call") =>
      match handleToolCall env repo (msg.get "params") store with
      | .ok (res, st) => .ok (rpcResult id res, st)
      | .error e => .ok (rpcError id (-32603) "Internal error" (.str e), store)
  | some (.str "resources/read") =>
      match handleResourceRead repo (msg.get "params") with
      | .ok res => .ok (rpcResult id res, store)
      | .error e => .error e
  | m => .ok (rpcError id (-32601) "Method not found"
      (.str ("Unknown method: " ++ jsTemplateOpt m)), store)

def corsOrigin : String × String := ("Access-Control-Allow-Origin", "*")

def corsAllowHeaders : String × String :=
  ("Access-Control-Allow-Headers", "Content-Type, Accept, Origin")

def corsAllowMethods : String × String :=
  ("Access-Control-Allow-Methods", "GET, POST, OPTIONS")

/-- Origin-rejection response (source lines 1085-1091 / 2473-2479):
no CORS headers. -/
def resp403 : HttpResponse :=
  ⟨403, [("Content-Type", "application/json")],
    (Json.obj [("error", .str "Invalid origin")]).stringify⟩

/-- Bad-Accept response (source lines 1107-1111): no CORS headers. -/
def resp400Accept : HttpResponse :=
  ⟨400, [("Content-Type", "application/json")],
    (Json.obj [("error", .str "Must accept application/json or text/event-stream")]).stringify⟩

/-- Invalid JSON-RPC message response (source lines 1436-1440): no CORS
headers. -/
def resp400Invalid : HttpResponse :=
  ⟨400, [("Content-Type", "application/json")],
    (Json.obj [("error", .str "Invalid JSON-RPC message")]).stringify⟩

/-- Accepted-notification response (source lines 1426-1434). -/
def resp202 : HttpResponse :=
  ⟨202, [corsOrigin, corsAllowHeaders, corsAllowMethods], ""⟩

/-- Outer-catch response of `mcpPost` (source lines 1446-1461): note the
field order `jsonrpc, error, id` and the lone CORS origin header. -/
def resp500 (msg : String) : HttpResponse :=
  ⟨500, [("Content-Type", "application/json"), corsOrigin],
    (Json.obj [("jsonrpc", .str "2.0"),
      ("error", .obj [("code", .num (-32603)), ("message", .str "Internal error"),
        ("data", .str msg)]),
      ("id", .null)]).stringify⟩

/-- 200 JSON response of `mcpPost` (source lines 1380-1389, also the
fallback at 1413-1422). -/
def jsonOK (response : Json) : HttpResponse :=
  ⟨200, [("Content-Type", "application/json"), corsOrigin, corsAllowHeaders, corsAllowMethods],
    response.stringify⟩

/-- 200 SSE response of `mcpPost` (source lines 1390-1409); the session id
is `Date.now().toString()`. -/
def sseOK (env : Env) (response : Json) (id : Option Json) : HttpResponse :=
  ⟨200, [("Content-Type", "text/event-stream"), ("Cache-Control", "no-cache"),
    ("Connection", "keep-alive"), corsOrigin, corsAllowHeaders, corsAllowMethods,
    ("X-Session-ID", jsNatToString env.nowMs)],
    formatSSEMessage response "response" id⟩

/-- Representative `SyntaxError` message of a failed `JSON.parse` (the
exact V8 text is environment-specific and no verified property reads it). -/
def jsonParseErrMsg : String := "Unexpected token in JSON"

/-- The TypeError thrown by `mcpMessage.method` when the body parsed to
`null` (representative V8 text). -/
def nullReadErrMsg : String := "Cannot read properties of null (reading \x27method\x27)"

/-- `JSON.parse(event.body || '\x7b\x7d')` (source line 1095): the `||`
substitutes only for an absent or empty body; a parse failure is a throw
reaching the outer `catch`. -/
def parseBody (body : Option String) : Except String Json :=
  let s := match body with
    | some b => if b ≠ "" then b else "\x7b\x7d"
    | none => "\x7b\x7d"
  match Json.parse s with
  | some j => .ok j
  | none => .error jsonParseErrMsg

/-- `mcpPost` (source lines 1068-1463): origin check, body parse, Accept
check, then dispatch and content negotiation; any throw lands in the outer
`catch` (HTTP 500). -/
def mcpPost (env : Env) (repo : Repo) (e : Event) (store : Store) : HttpResponse × Store :=
  if ¬ validateOrigin (originOf e) then (resp403, store)
  else
    match parseBody e.body with
    | .error msg => (resp500 msg, store)
    | .ok mcpMessage =>
        let accept := acceptOf e
        let supportsSSE := jsIncludes accept "text/event-stream"
        let supportsJSON := jsIncludes accept "application/json"
        if ¬ supportsSSE ∧ ¬ supportsJSON then (resp400Accept, store)
        else
          match mcpMessage with
          | .null => (resp500 nullReadErrMsg, store)
          | _ =>
            if truthyOpt (mcpMessage.get "method") then
              match dispatchMessage env repo mcpMessage store with
              | .error msg => (resp500 msg, store)
              | .ok (response, store2) =>
                  let preferJSON := (match mcpMessage.get "method" with
                    | some m => knownMethods.contains m
                    | none => false)
                  if supportsJSON && (preferJSON || !supportsSSE) then (jsonOK response, store2)
                  else if supportsSSE then (sseOK env response (mcpMessage.get "id"), store2)
                  else (jsonOK response, store2)
            else if (mcpMessage.get "result") ≠ none ∨ (mcpMessage.get "error") ≠ none then
              (resp202, store)
            else (resp400Invalid, store)

/-- 405 response of `mcpGet` (source lines 1485-1492): `Allow: POST`, no
CORS headers. -/
def resp405 : HttpResponse :=
  ⟨405, [("Content-Type", "application/json"), ("Allow", "POST")],
    (Json.obj [("error", .str "Method Not Allowed - must accept text/event-stream")]).stringify⟩

/-- `mcpGet` (source lines 1466-1527): origin check, Accept must include
`text/event-stream`, then a single-frame `connected` SSE stream. -/
def mcpGet (env : Env) (e : Event) : HttpResponse :=
  if ¬ validateOrigin (originOf e) then resp403
  else
    if ¬ jsIncludes (acceptOf e) "text/event-stream" then resp405
    else
      let sessionId := jsNatToString env.nowMs
      ⟨200, [("Content-Type", "text/event-stream"), ("Cache-Control", "no-cache"),
        ("Connection", "keep-alive"), corsOrigin, corsAllowHeaders, corsAllowMethods,
        ("X-Session-ID", sessionId)],
        formatSSEMessage (.obj [("type", .str "connected"), ("sessionId", .str sessionId)])
          "connected" none⟩

/-- `mcpOptions` (source lines 1530-1540). -/
def mcpOptions : HttpResponse :=
  ⟨200, [corsOrigin, corsAllowHeaders, corsAllowMethods], ""⟩

/-! ### Lemmas about the embedding -/

/-- No newline character occurs in `s` (the `.*` constraint of the SSE
frame grammar). -/
def noNL (s : String) : Bool :=
  s.data.all (fun c => c != '\n')

theorem noNL_append (a b : String) : noNL (a ++ b) = (noNL a && noNL b) := by
  simp [noNL, String.data_append, List.all_append]

theorem escChars_noNL : ∀ l : List Char, (escChars l).all (fun c => c != '\n') = true
  | [] => rfl
  | c :: cs => by
      simp only [escChars, List.all_append, Bool.and_eq_true]
      refine ⟨?_, escChars_noNL cs⟩
      unfold escChar
      split_ifs with h1 h2 h3 h4 h5 <;> simp_all

theorem noNL_escString (s : String) : noNL (escString s) = true :=
  escChars_noNL s.data

theorem natToCharsAux_noNL : ∀ fuel n : Nat, (natToCharsAux fuel n).all (fun c => c != '\n') = true
  | 0, _ => rfl
  | fuel + 1, n => by
      unfold natToCharsAux
      split
      · rename_i h
        interval_cases n <;> decide
      · rename_i h
        simp only [List.all_append, Bool.and_eq_true]
        refine ⟨natToCharsAux_noNL fuel (n / 10), ?_⟩
        have hk : n % 10 < 10 := Nat.mod_lt _ (by omega)
        generalize n % 10 = k at hk
        interval_cases k <;> decide

theorem natToChars_noNL (n : Nat) : (natToChars n).all (fun c => c != '\n') = true :=
  natToCharsAux_noNL (n + 1) n

theorem noNL_jsNatToString (n : Nat) : noNL (jsNatToString n) = true :=
  natToChars_noNL n

theorem noNL_intToString (n : Int) : noNL (intToString n) = true := by
  unfold intToString
  split
  · rw [noNL_append]
    simp [noNL_jsNatToString]
    decide
  · exact noNL_jsNatToString _

theorem natToChars_ne_nil (n : Nat) : natToChars n ≠ [] := by
  unfold natToChars natToCharsAux
  split
  · simp
  · simp

theorem jsNatToString_ne_empty (n : Nat) : jsNatToString n ≠ "" := by
  intro h
  exact natToChars_ne_nil n (congrArg String.data h)

mutual
theorem stringify_noNL : ∀ j : Json, noNL j.stringify = true
  | .null => by decide
  | .bool true => by decide
  | .bool false => by decide
  | .num n => noNL_intToString n
  | .str s => by
      rw [Json.stringify, noNL_append, noNL_append]
      simp [noNL_escString s]
      decide
  | .arr xs => by
      rw [Json.stringify, noNL_append, noNL_append]
      simp [stringifyList_noNL xs]
      decide
  | .obj fs => by
      rw [Json.stringify, noNL_append, noNL_append]
      simp [stringifyFields_noNL fs]
      decide

theorem stringifyList_noNL : ∀ xs : List Json, noNL (stringifyList xs) = true
  | [] => by decide
  | [j] => by rw [stringifyList]; exact stringify_noNL j
  | j :: j2 :: rest => by
      rw [stringifyList, noNL_append, noNL_append]
      simp [stringify_noNL j, stringifyList_noNL (j2 :: rest)]
      decide

theorem stringifyFields_noNL : ∀ fs : List (String × Json), noNL (stringifyFields fs) = true
  | [] => by decide
  | [(k, v)] => by
      rw [stringifyFields, noNL_append, noNL_append, noNL_append]
      simp [noNL_escString k, stringify_noNL v]
      decide
  | (k, v) :: f2 :: rest => by
      rw [stringifyFields, noNL_append, noNL_append, noNL_append, noNL_append, noNL_append]
      simp [noNL_escString k, stringify_noNL v, stringifyFields_noNL (f2 :: rest)]
      decide
end

/-- An optional SSE header line `pre ++ x ++ "\n"`. -/
def optLine (pre : String) : Option String → String
  | none => ""
  | some x => pre ++ (x ++ "\n")

/-- The SSE frame grammar `(id: .*\n)?(event: .*\n)?data: .*\n\n` with `.`
matching anything but a newline. -/
def sseGrammar (s : String) : Prop :=
  ∃ (idPart evPart : Option String) (d : String),
    (∀ x, idPart = some x → noNL x = true) ∧
    (∀ x, evPart = some x → noNL x = true) ∧
    noNL d = true ∧
    s = optLine "id: " idPart ++ (optLine "event: " evPart ++ ("data: " ++ (d ++ "\n\n")))

/-- `formatSSEMessage` always emits one well-formed SSE frame, provided the
interpolated id text is newline-free. -/
theorem formatSSEMessage_grammar (data : Json) (event : String) (id : Option Json)
    (hid : noNL (jsTemplateOpt id) = true) (hev : noNL event = true) :
    sseGrammar (formatSSEMessage data event id) := by
  refine ⟨if truthyOpt id then some (jsTemplateOpt id) else none,
    if event ≠ "" then some event else none, data.stringify, ?_, ?_, stringify_noNL data, ?_⟩
  · intro x hx
    split at hx
    · cases hx; exact hid
    · cases hx
  · intro x hx
    split at hx
    · cases hx; exact hev
    · cases hx
  · unfold formatSSEMessage optLine
    by_cases h1 : truthyOpt id = true <;> by_cases h2 : event = "" <;> simp [h1, h2]

/-! Field-lookup lemmas for `setField`. -/

theorem lookup_setFields_self (k : String) (v : Json) :
    ∀ fs : List (String × Json), (setFields fs k v).lookup k = some v
  | [] => by simp [setFields, List.lookup]
  | (k0, v0) :: rest => by
      by_cases h : k0 = k
      · subst h
        simp [setFields, List.lookup]
      · have hbeq : (k == k0) = false := by
          simp [Ne.symm h]
        simp [setFields, h, List.lookup, hbeq, lookup_setFields_self k v rest]

theorem lookup_setFields_ne (k k2 : String) (v : Json) (h : k2 ≠ k) :
    ∀ fs : List (String × Json), (setFields fs k v).lookup k2 = fs.lookup k2
  | [] => by
      have hbeq : (k2 == k) = false := by simp [h]
      simp [setFields, List.lookup, hbeq]
  | (k0, v0) :: rest => by
      by_cases h0 : k0 = k
      · subst h0
        have hbeq : (k2 == k0) = false := by simp [h]
        simp [setFields, List.lookup, hbeq]
      · simp only [setFields, if_neg h0, List.lookup]
        cases hk : (k2 == k0) <;>
          simp [hk, lookup_setFields_ne k k2 v h rest]

theorem get_setField_self (fs : List (String × Json)) (k : String) (v : Json) :
    (Json.setField (.obj fs) k v).get k = some v := by
  simp only [Json.setField, Json.get]
  exact lookup_setFields_self k v fs

theorem get_setField_ne (fs : List (String × Json)) (k k2 : String) (v : Json) (h : k2 ≠ k) :
    (Json.setField (.obj fs) k v).get k2 = (Json.obj fs).get k2 := by
  simp only [Json.setField, Json.get]
  exact lookup_setFields_ne k k2 v h fs

/-! ### Concrete fixtures for witnesses and counterexamples -/

def fixtureEnv : Env :=
  ⟨111, "2025-01-01T00:00:00.000Z", fun i => "uuid-" ++ jsNatToString i⟩

/-- A repository whose `create` resolves to the stored document and whose
read-only queries reject (none of the verified runs reach them). -/
def fixtureRepo : Repo :=
  ⟨.ok (), fun doc _ => .ok doc, fun _ => .error "db offline", fun _ => .error "db offline",
   fun _ => .error "db offline", .error "db offline", .error "db offline", .error "db offline"⟩

/-- An event with the given Accept header and body, and no Origin and no
Authorization header. -/
def mkEvent (accept body : Option String) : Event :=
  ⟨none, none, accept, none, none, body⟩

/-- Every response of the POST handler has one of these status codes —
in particular 401 is never produced. -/
theorem mcpPost_statusCode_mem (env : Env) (repo : Repo) (e : Event) (store : Store) :
    (mcpPost env repo e store).1.statusCode ∈ ([200, 202, 400, 403, 500] : List Nat) := by
  unfold mcpPost
  dsimp only
  repeat' split
  all_goals simp [resp403, resp400Accept, resp400Invalid, resp202, resp500, jsonOK, sseOK]

/-- **C1** (amended).  The POST handler performs no authorization check at
all: its response and store effect are independent of the `Authorization`
header, and its status code is never 401 (so no 401/`-32001` auth rejection
exists, before dispatch or anywhere else). -/
theorem c1_post_has_no_auth_gate (env : Env) (repo : Repo) (e : Event) (store : Store)
    (a1 a2 : Option String) :
    mcpPost env repo { e with authorization := a1 } store
      = mcpPost env repo { e with authorization := a2 } store
    ∧ (mcpPost env repo e store).1.statusCode ≠ 401 := by
  constructor
  · cases e
    rfl
  · intro h
    have hmem := mcpPost_statusCode_mem env repo e store
    rw [h] at hmem
    simp at hmem

/-- **C1** counterexample.  A POST with no `Authorization` header at all
(and a decodable JSON-RPC request body) is dispatched and answered with
HTTP 200 — not with the 401/`-32001` auth error the claim requires. -/
theorem c1_counterexample :
    (mkEvent (some "application/json")
        (some "\x7b\"jsonrpc\":\"2.0\",\"id\":1,\"method\":\"initialize\"\x7d")).authorization
      = none
    ∧ (mcpPost fixtureEnv fixtureRepo
        (mkEvent (some "application/json")
          (some "\x7b\"jsonrpc\":\"2.0\",\"id\":1,\"method\":\"initialize\"\x7d")) []).1.statusCode
      = 200
    ∧ (200 : Nat) ≠ 401 :=
  ⟨rfl, by decide, by decide⟩

/-- **C2** (amended).  Only an absent or empty body is substituted by
`'\x7b\x7d'` (via `event.body || '\x7b\x7d'`) and falls through to the
no-method 400 (`Invalid JSON-RPC message`, under an acceptable Accept
header); a non-empty body that fails `JSON.parse` instead throws into the
outer catch and yields HTTP 500 with JSON-RPC code `-32603`. -/
theorem c2_amended (env : Env) (repo : Repo) (e : Event) (store : Store)
    (horig : validateOrigin (originOf e) = true) :
    ((e.body = none ∨ e.body = some "") →
      (jsIncludes (acceptOf e) "text/event-stream" || jsIncludes (acceptOf e) "application/json") = true →
      (mcpPost env repo e store).1 = resp400Invalid ∧ resp400Invalid.statusCode = 400)
    ∧ (∀ s, e.body = some s → s ≠ "" → Json.parse s = none →
      (mcpPost env repo e store).1 = resp500 jsonParseErrMsg
      ∧ (resp500 jsonParseErrMsg).statusCode = 500) := by
  constructor
  · intro hbody haccept
    have hpb : parseBody e.body = .ok (.obj []) := by
      rcases hbody with h | h <;> rw [h] <;> rfl
    refine ⟨?_, rfl⟩
    cases hsse : jsIncludes (acceptOf e) "text/event-stream" <;>
      cases hjson : jsIncludes (acceptOf e) "application/json"
    · rw [hsse, hjson] at haccept
      simp at haccept
    all_goals
      simp [mcpPost, horig, hpb, hsse, hjson, Json.get, truthyOpt, List.lookup]
  · intro s hs hne hparse
    have hpb : parseBody e.body = .error jsonParseErrMsg := by
      rw [hs]
      unfold parseBody
      simp [hne, hparse]
    refine ⟨?_, rfl⟩
    simp [mcpPost, horig, hpb]

/-- **C2** counterexample.  The non-empty invalid-JSON body `"\x7b"` does
not behave like `\x7b\x7d`: the handler returns HTTP 500, not 400. -/
theorem c2_counterexample :
    Json.parse "\x7b" = none
    ∧ (mcpPost fixtureEnv fixtureRepo (mkEvent (some "application/json") (some "\x7b")) []).1.statusCode = 500
    ∧ (500 : Nat) ≠ 400 :=
  ⟨by decide, by decide, by decide⟩

/-- **C2** witness: the amended theorem applied to an absent body (400,
invalid message) and to the malformed body `"["` (500). -/
theorem c2_witness :
    (mcpPost fixtureEnv fixtureRepo (mkEvent (some "application/json") none) []).1 = resp400Invalid
    ∧ (mcpPost fixtureEnv fixtureRepo (mkEvent (some "application/json") (some "[")) []).1
      = resp500 jsonParseErrMsg :=
  ⟨((c2_amended fixtureEnv fixtureRepo (mkEvent (some "application/json") none) []
      (by decide)).1 (Or.inl rfl) (by decide)).1,
   ((c2_amended fixtureEnv fixtureRepo (mkEvent (some "application/json") (some "[")) []
      (by decide)).2 "[" rfl (by decide) (by decide)).1⟩

/-- **C3** (amended).  A parsed body carrying `result` or `error` but no
`method` short-circuits to HTTP 202 with an empty body for every Accept
header that names `application/json` or `text/event-stream`; an Accept
header naming neither is rejected with HTTP 400 *before* the message-type
check, so the 202 does not apply there. -/
theorem c3_amended (env : Env) (repo : Repo) (e : Event) (store : Store) (msg : Json)
    (horig : validateOrigin (originOf e) = true)
    (hparse : parseBody e.body = .ok msg)
    (hmethod : msg.get "method" = none)
    (hre : msg.get "result" ≠ none ∨ msg.get "error" ≠ none)
    (haccept : (jsIncludes (acceptOf e) "text/event-stream"
      || jsIncludes (acceptOf e) "application/json") = true) :
    mcpPost env repo e store = (resp202, store)
    ∧ resp202.statusCode = 202 ∧ resp202.body = "" := by
  refine ⟨?_, rfl, rfl⟩
  cases msg
  case obj fs =>
    have hcond : (((Json.obj fs).get "result") ≠ none ∨ ((Json.obj fs).get "error") ≠ none) := hre
    cases hsse : jsIncludes (acceptOf e) "text/event-stream" <;>
      cases hjson : jsIncludes (acceptOf e) "application/json"
    · rw [hsse, hjson] at haccept
      simp at haccept
    all_goals simp [mcpPost, horig, hparse, hmethod, hsse, hjson, truthyOpt, hcond]
  all_goals (rcases hre with h | h <;> simp [Json.get] at h)

/-- **C3** counterexample.  A JSON-RPC response body (`result`, no
`method`) sent with `Accept: text/plain` is answered 400, not 202: the
Accept check precedes the notification short-circuit. -/
theorem c3_counterexample :
    (Json.parse "\x7b\"jsonrpc\":\"2.0\",\"result\":5,\"id\":1\x7d").map
        (fun m => (m.get "method", m.get "result"))
      = some (none, some (.num 5))
    ∧ (mcpPost fixtureEnv fixtureRepo
        (mkEvent (some "text/plain")
          (some "\x7b\"jsonrpc\":\"2.0\",\"result\":5,\"id\":1\x7d")) []).1.statusCode = 400
    ∧ (400 : Nat) ≠ 202 :=
  ⟨by decide, by decide, by decide⟩

/-- **C3** witness: the amended theorem at a concrete response-only body
with `Accept: application/json`. -/
theorem c3_witness :
    mcpPost fixtureEnv fixtureRepo
        (mkEvent (some "application/json")
          (some "\x7b\"jsonrpc\":\"2.0\",\"result\":5,\"id\":1\x7d")) []
      = (resp202, []) :=
  (c3_amended fixtureEnv fixtureRepo
    (mkEvent (some "application/json") (some "\x7b\"jsonrpc\":\"2.0\",\"result\":5,\"id\":1\x7d"))
    [] (.obj [("jsonrpc", .str "2.0"), ("result", .num 5), ("id", .num 1)])
    (by decide) rfl rfl (Or.inl (by decide)) (by decide)).1

/-- **C7** (amended).  For every POST with valid origin whose body is
absent, empty, or parseable JSON, an Accept header containing neither
`application/json` nor `text/event-stream` is rejected with HTTP 400
independently of the body; a body that fails `JSON.parse` bypasses the
Accept check and yields HTTP 500 instead (the parse precedes the Accept
check). -/
theorem c7_amended (env : Env) (repo : Repo) (e : Event) (store : Store)
    (horig : validateOrigin (originOf e) = true)
    (hbody : ∃ j, parseBody e.body = .ok j)
    (hsse : jsIncludes (acceptOf e) "text/event-stream" = false)
    (hjson : jsIncludes (acceptOf e) "application/json" = false) :
    (mcpPost env repo e store).1 = resp400Accept
    ∧ resp400Accept.statusCode = 400 := by
  obtain ⟨j, hj⟩ := hbody
  refine ⟨?_, rfl⟩
  simp [mcpPost, horig, hj, hsse, hjson]

/-- **C7** counterexample.  With a valid origin and `Accept: text/plain`
(naming neither media type), the malformed body `"["` produces HTTP 500,
not the 400 the claim requires for every such request. -/
theorem c7_counterexample :
    jsIncludes "text/plain" "application/json" = false
    ∧ jsIncludes "text/plain" "text/event-stream" = false
    ∧ (mcpPost fixtureEnv fixtureRepo (mkEvent (some "text/plain") (some "[")) []).1.statusCode = 500
    ∧ (500 : Nat) ≠ 400 :=
  ⟨by decide, by decide, by decide, by decide⟩

/-- **C7** witness: the amended theorem at a concrete request-shaped body
with `Accept: text/plain`. -/
theorem c7_witness :
    (mcpPost fixtureEnv fixtureRepo
        (mkEvent (some "text/plain") (some "\x7b\"method\":\"initialize\"\x7d")) []).1
      = resp400Accept :=
  (c7_amended fixtureEnv fixtureRepo
    (mkEvent (some "text/plain") (some "\x7b\"method\":\"initialize\"\x7d")) []
    (by decide) ⟨.obj [("method", .str "initialize")], rfl⟩ (by decide) (by decide)).1

/-- **C9** (amended).  A POST whose `method` is a *non-empty* string not
among `initialize`, `tools/list`, `resources/list`, `tools/call`,
`resources/read`, under an acceptable Accept header, is answered with HTTP
status 200 whose body carries the JSON-RPC error envelope with code
`-32601` (as plain JSON or inside the SSE `data:` frame): protocol-level
errors ride inside a 200 response.  (A falsy `method` — e.g. the empty
string — is present but fails the `if (mcpMessage.method)` dispatch test
and is answered 202 or 400 instead; see the counterexample.) -/
theorem c9_unknown_method (env : Env) (repo : Repo) (e : Event) (store : Store)
    (msg : Json) (m : String)
    (horig : validateOrigin (originOf e) = true)
    (hparse : parseBody e.body = .ok msg)
    (hm : msg.get "method" = some (.str m))
    (hne : m ≠ "")
    (hunknown : (Json.str m) ∉ knownMethods)
    (haccept : (jsIncludes (acceptOf e) "text/event-stream"
      || jsIncludes (acceptOf e) "application/json") = true) :
    (mcpPost env repo e store).1.statusCode = 200
    ∧ (∃ errObj,
        (rpcError (msg.get "id") (-32601) "Method not found"
          (.str ("Unknown method: " ++ m))).get "error" = some errObj
        ∧ errObj.get "code" = some (.num (-32601)))
    ∧ ((mcpPost env repo e store).1.body
        = (rpcError (msg.get "id") (-32601) "Method not found"
            (.str ("Unknown method: " ++ m))).stringify
      ∨ (mcpPost env repo e store).1.body
        = formatSSEMessage
            (rpcError (msg.get "id") (-32601) "Method not found"
              (.str ("Unknown method: " ++ m))) "response" (msg.get "id")) := by
  cases msg with
  | null => simp [Json.get] at hm
  | bool b => simp [Json.get] at hm
  | num n => simp [Json.get] at hm
  | str s => simp [Json.get] at hm
  | arr xs => simp [Json.get] at hm
  | obj fs =>
    have hm5 : m ≠ "initialize" ∧ m ≠ "tools/list" ∧ m ≠ "resources/list"
        ∧ m ≠ "tools/call" ∧ m ≠ "resources/read" := by
      refine ⟨?_, ?_, ?_, ?_, ?_⟩ <;> (intro h; exact hunknown (by simp [knownMethods, h]))
    obtain ⟨h1, h2, h3, h4, h5⟩ := hm5
    have hdisp : dispatchMessage env repo (.obj fs) store
        = .ok (rpcError ((Json.obj fs).get "id") (-32601) "Method not found"
            (.str ("Unknown method: " ++ m)), store) := by
      unfold dispatchMessage
      rw [hm]
      split
      · rename_i heq; simp at heq; exact absurd heq h1
      · rename_i heq; simp at heq; exact absurd heq h2
      · rename_i heq; simp at heq; exact absurd heq h3
      · rename_i heq; simp at heq; exact absurd heq h4
      · rename_i heq; simp at heq; exact absurd heq h5
      · simp [jsTemplateOpt, jsTemplateJ]
    have hpj : knownMethods.contains (Json.str m) = false := by
      simp [knownMethods, List.contains, h1, h2, h3, h4, h5]
    have herr : ∃ errObj,
        (rpcError ((Json.obj fs).get "id") (-32601) "Method not found"
          (.str ("Unknown method: " ++ m))).get "error" = some errObj
        ∧ errObj.get "code" = some (.num (-32601)) := by
      refine ⟨.obj [("code", .num (-32601)), ("message", .str "Method not found"),
        ("data", .str ("Unknown method: " ++ m))], ?_, by simp [Json.get, List.lookup]⟩
      cases hid : (Json.obj fs).get "id" <;>
        simp [rpcError, optField, Json.get, List.lookup]
    cases hsse : jsIncludes (acceptOf e) "text/event-stream" <;>
      cases hjson : jsIncludes (acceptOf e) "application/json"
    · rw [hsse, hjson] at haccept
      simp at haccept
    · have hpost : mcpPost env repo e store
          = (jsonOK (rpcError ((Json.obj fs).get "id") (-32601) "Method not found"
              (.str ("Unknown method: " ++ m))), store) := by
        simp [mcpPost, horig, hparse, hsse, hjson, truthyOpt, Json.truthy, hm, hne, hdisp, hpj, hunknown]
      rw [hpost]
      exact ⟨rfl, herr, Or.inl rfl⟩
    · have hpost : mcpPost env repo e store
          = (sseOK env (rpcError ((Json.obj fs).get "id") (-32601) "Method not found"
              (.str ("Unknown method: " ++ m))) ((Json.obj fs).get "id"), store) := by
        simp [mcpPost, horig, hparse, hsse, hjson, truthyOpt, Json.truthy, hm, hne, hdisp, hpj, hunknown]
      rw [hpost]
      exact ⟨rfl, herr, Or.inr rfl⟩
    · have hpost : mcpPost env repo e store
          = (sseOK env (rpcError ((Json.obj fs).get "id") (-32601) "Method not found"
              (.str ("Unknown method: " ++ m))) ((Json.obj fs).get "id"), store) := by
        simp [mcpPost, horig, hparse, hsse, hjson, truthyOpt, Json.truthy, hm, hne, hdisp, hpj, hunknown]
      rw [hpost]
      exact ⟨rfl, herr, Or.inr rfl⟩

/-- **C9** witness: the theorem at `method: "foo/bar"` with
`Accept: application/json`. -/
theorem c9_witness :
    (mcpPost fixtureEnv fixtureRepo
        (mkEvent (some "application/json")
          (some "\x7b\"id\":2,\"method\":\"foo/bar\"\x7d")) []).1.statusCode = 200 :=
  (c9_unknown_method fixtureEnv fixtureRepo
    (mkEvent (some "application/json") (some "\x7b\"id\":2,\"method\":\"foo/bar\"\x7d")) []
    (.obj [("id", .num 2), ("method", .str "foo/bar")]) "foo/bar"
    (by decide) rfl rfl (by decide) (by decide) (by decide)).1

/-- **C6** (amended).  For a POST with a truthy `method`, Accept containing
`text/event-stream` but not `application/json`, and a dispatch that does
not throw, the response is 200 `text/event-stream` with an `X-Session-ID`
header and exactly one SSE frame whose `id:` line appears iff the request
id is *truthy* (a zero or empty id is omitted, unlike the non-null
condition of the claim), then `event: response`, then the `data:` line;
the frame matches `(id: .*\n)?(event: .*\n)?data: .*\n\n` whenever the
interpolated id text is newline-free. -/
theorem c6_amended (env : Env) (repo : Repo) (e : Event) (store store2 : Store)
    (msg response : Json)
    (horig : validateOrigin (originOf e) = true)
    (hparse : parseBody e.body = .ok msg)
    (hmethod : truthyOpt (msg.get "method") = true)
    (hdisp : dispatchMessage env repo msg store = .ok (response, store2))
    (hsse : jsIncludes (acceptOf e) "text/event-stream" = true)
    (hjson : jsIncludes (acceptOf e) "application/json" = false) :
    mcpPost env repo e store = (sseOK env response (msg.get "id"), store2)
    ∧ (sseOK env response (msg.get "id")).statusCode = 200
    ∧ ("Content-Type", "text/event-stream") ∈ (sseOK env response (msg.get "id")).headers
    ∧ ("X-Session-ID", jsNatToString env.nowMs) ∈ (sseOK env response (msg.get "id")).headers
    ∧ (sseOK env response (msg.get "id")).body
        = (if truthyOpt (msg.get "id") then "id: " ++ (jsTemplateOpt (msg.get "id") ++ "\n") else "")
          ++ (("event: " ++ ("response" ++ "\n")) ++ ("data: " ++ (response.stringify ++ "\n\n")))
    ∧ (noNL (jsTemplateOpt (msg.get "id")) = true →
        sseGrammar (sseOK env response (msg.get "id")).body) := by
  refine ⟨?_, rfl, by simp [sseOK], by simp [sseOK], ?_, ?_⟩
  · cases msg with
    | null => simp [Json.get, truthyOpt] at hmethod
    | bool b => simp [Json.get, truthyOpt] at hmethod
    | num n => simp [Json.get, truthyOpt] at hmethod
    | str s => simp [Json.get, truthyOpt] at hmethod
    | arr xs => simp [Json.get, truthyOpt] at hmethod
    | obj fs => simp [mcpPost, horig, hparse, hmethod, hsse, hjson, hdisp]
  · simp [sseOK, formatSSEMessage]
  · intro hid
    exact formatSSEMessage_grammar response "response" (msg.get "id") hid (by decide)

/-- **C6** counterexample.  With response id `0` — a non-null id — the SSE
body contains no `id:` line at all: `formatSSEMessage` tests truthiness,
and `0` is falsy. -/
theorem c6_counterexample :
    parseBody (some "\x7b\"id\":0,\"method\":\"initialize\"\x7d")
      = .ok (.obj [("id", .num 0), ("method", .str "initialize")])
    ∧ Json.num 0 ≠ Json.null
    ∧ jsIncludes (mcpPost fixtureEnv fixtureRepo
        (mkEvent (some "text/event-stream")
          (some "\x7b\"id\":0,\"method\":\"initialize\"\x7d")) []).1.body "id: " = false
    ∧ (mcpPost fixtureEnv fixtureRepo
        (mkEvent (some "text/event-stream")
          (some "\x7b\"id\":0,\"method\":\"initialize\"\x7d")) []).1.statusCode = 200 :=
  ⟨rfl, by decide, by decide, by decide⟩

/-- **C6** witness: the amended theorem at `id: 1`, `method: "initialize"`,
`Accept: text/event-stream`. -/
theorem c6_witness :
    mcpPost fixtureEnv fixtureRepo
        (mkEvent (some "text/event-stream")
          (some "\x7b\"id\":1,\"method\":\"initialize\"\x7d")) []
      = (sseOK fixtureEnv (rpcResult (some (.num 1)) initializeResult) (some (.num 1)), [])
    ∧ sseGrammar (sseOK fixtureEnv (rpcResult (some (.num 1)) initializeResult)
        (some (.num 1))).body :=
  have h := c6_amended fixtureEnv fixtureRepo
    (mkEvent (some "text/event-stream") (some "\x7b\"id\":1,\"method\":\"initialize\"\x7d"))
    [] [] (.obj [("id", .num 1), ("method", .str "initialize")])
    (rpcResult (some (.num 1)) initializeResult)
    (by decide) rfl (by decide) rfl (by decide) (by decide)
  ⟨h.1, h.2.2.2.2.2 (by decide)⟩

/-- **C8**.  GET with a valid origin: if Accept does not include
`text/event-stream` the response is 405 with `Allow: POST`; otherwise it is
200 `text/event-stream` with a non-empty `X-Session-ID` header and a body
that is exactly one SSE frame `event: connected` /
`data: {type: connected, sessionId}` — one frame, then the body ends. -/
theorem c8_get (env : Env) (e : Event)
    (horig : validateOrigin (originOf e) = true) :
    (jsIncludes (acceptOf e) "text/event-stream" = false →
      mcpGet env e = resp405 ∧ resp405.statusCode = 405 ∧ ("Allow", "POST") ∈ resp405.headers)
    ∧ (jsIncludes (acceptOf e) "text/event-stream" = true →
      (mcpGet env e).statusCode = 200
      ∧ ("Content-Type", "text/event-stream") ∈ (mcpGet env e).headers
      ∧ ("X-Session-ID", jsNatToString env.nowMs) ∈ (mcpGet env e).headers
      ∧ jsNatToString env.nowMs ≠ ""
      ∧ (mcpGet env e).body
          = formatSSEMessage (.obj [("type", .str "connected"),
              ("sessionId", .str (jsNatToString env.nowMs))]) "connected" none
      ∧ sseGrammar (mcpGet env e).body) := by
  constructor
  · intro h
    refine ⟨?_, rfl, by decide⟩
    simp [mcpGet, horig, h]
  · intro h
    refine ⟨by simp [mcpGet, horig, h], by simp [mcpGet, horig, h],
      by simp [mcpGet, horig, h], jsNatToString_ne_empty _,
      by simp [mcpGet, horig, h], ?_⟩
    have hb : (mcpGet env e).body
        = formatSSEMessage (.obj [("type", .str "connected"),
            ("sessionId", .str (jsNatToString env.nowMs))]) "connected" none := by
      simp [mcpGet, horig, h]
    rw [hb]
    exact formatSSEMessage_grammar _ "connected" none (by decide) (by decide)

/-- **C8** witness: the theorem at a JSON-only Accept (405 branch) and at
`Accept: text/event-stream` (200 branch). -/
theorem c8_witness :
    mcpGet fixtureEnv (mkEvent (some "application/json") none) = resp405
    ∧ (mcpGet fixtureEnv (mkEvent (some "text/event-stream") none)).statusCode = 200
    ∧ ("X-Session-ID", jsNatToString fixtureEnv.nowMs)
        ∈ (mcpGet fixtureEnv (mkEvent (some "text/event-stream") none)).headers :=
  ⟨((c8_get fixtureEnv (mkEvent (some "application/json") none) (by decide)).1 (by decide)).1,
   ((c8_get fixtureEnv (mkEvent (some "text/event-stream") none) (by decide)).2 (by decide)).1,
   ((c8_get fixtureEnv (mkEvent (some "text/event-stream") none) (by decide)).2 (by decide)).2.2.1⟩

/-- The POST response is always one of seven literal response shapes. -/
theorem mcpPost_response_cases (env : Env) (repo : Repo) (e : Event) (store : Store) :
    (mcpPost env repo e store).1 = resp403
    ∨ (∃ m, (mcpPost env repo e store).1 = resp500 m)
    ∨ (mcpPost env repo e store).1 = resp400Accept
    ∨ (mcpPost env repo e store).1 = resp400Invalid
    ∨ (mcpPost env repo e store).1 = resp202
    ∨ (∃ r, (mcpPost env repo e store).1 = jsonOK r)
    ∨ (∃ r i, (mcpPost env repo e store).1 = sseOK env r i) := by
  unfold mcpPost
  dsimp only
  repeat' split
  all_goals first
    | exact Or.inl rfl
    | exact Or.inr (Or.inl ⟨_, rfl⟩)
    | exact Or.inr (Or.inr (Or.inl rfl))
    | exact Or.inr (Or.inr (Or.inr (Or.inl rfl)))
    | exact Or.inr (Or.inr (Or.inr (Or.inr (Or.inl rfl))))
    | exact Or.inr (Or.inr (Or.inr (Or.inr (Or.inr (Or.inl ⟨_, rfl⟩)))))
    | exact Or.inr (Or.inr (Or.inr (Or.inr (Or.inr (Or.inr ⟨_, _, rfl⟩)))))

/-- **C5** (amended).  The CORS triple (`Access-Control-Allow-Origin: *`,
`Access-Control-Allow-Headers: Content-Type, Accept, Origin` — note:
without `Authorization` — and `Access-Control-Allow-Methods: GET, POST,
OPTIONS`) is attached to the POST 200 and 202 responses, the GET 200
response, and the OPTIONS response; the 400, 403 and 405 responses of POST
and GET omit all three, and the POST 500 response carries only
`Access-Control-Allow-Origin`. -/
theorem c5_amended (env : Env) (repo : Repo) (e : Event) (store : Store) :
    (((mcpPost env repo e store).1.statusCode = 200 ∨ (mcpPost env repo e store).1.statusCode = 202) →
      corsOrigin ∈ (mcpPost env repo e store).1.headers
      ∧ corsAllowHeaders ∈ (mcpPost env repo e store).1.headers
      ∧ corsAllowMethods ∈ (mcpPost env repo e store).1.headers)
    ∧ (((mcpPost env repo e store).1.statusCode = 400 ∨ (mcpPost env repo e store).1.statusCode = 403) →
      corsOrigin ∉ (mcpPost env repo e store).1.headers
      ∧ corsAllowHeaders ∉ (mcpPost env repo e store).1.headers
      ∧ corsAllowMethods ∉ (mcpPost env repo e store).1.headers)
    ∧ ((mcpPost env repo e store).1.statusCode = 500 →
      corsOrigin ∈ (mcpPost env repo e store).1.headers
      ∧ corsAllowHeaders ∉ (mcpPost env repo e store).1.headers
      ∧ corsAllowMethods ∉ (mcpPost env repo e store).1.headers)
    ∧ ((mcpGet env e).statusCode = 200 →
      corsOrigin ∈ (mcpGet env e).headers
      ∧ corsAllowHeaders ∈ (mcpGet env e).headers
      ∧ corsAllowMethods ∈ (mcpGet env e).headers)
    ∧ (((mcpGet env e).statusCode = 403 ∨ (mcpGet env e).statusCode = 405) →
      corsOrigin ∉ (mcpGet env e).headers
      ∧ corsAllowHeaders ∉ (mcpGet env e).headers
      ∧ corsAllowMethods ∉ (mcpGet env e).headers)
    ∧ (corsOrigin ∈ mcpOptions.headers ∧ corsAllowHeaders ∈ mcpOptions.headers
      ∧ corsAllowMethods ∈ mcpOptions.headers) := by
  have hP := mcpPost_response_cases env repo e store
  refine ⟨?_, ?_, ?_, ?_, ?_, by decide⟩
  · rcases hP with h | ⟨m, h⟩ | h | h | h | ⟨r, h⟩ | ⟨r, i, h⟩ <;> rw [h] <;> intro hs <;>
      simp_all [resp403, resp400Accept, resp400Invalid, resp202, resp500, jsonOK, sseOK,
        corsOrigin, corsAllowHeaders, corsAllowMethods]
  · rcases hP with h | ⟨m, h⟩ | h | h | h | ⟨r, h⟩ | ⟨r, i, h⟩ <;> rw [h] <;> intro hs <;>
      simp_all [resp403, resp400Accept, resp400Invalid, resp202, resp500, jsonOK, sseOK,
        corsOrigin, corsAllowHeaders, corsAllowMethods]
  · rcases hP with h | ⟨m, h⟩ | h | h | h | ⟨r, h⟩ | ⟨r, i, h⟩ <;> rw [h] <;> intro hs <;>
      simp_all [resp403, resp400Accept, resp400Invalid, resp202, resp500, jsonOK, sseOK,
        corsOrigin, corsAllowHeaders, corsAllowMethods]
  · unfold mcpGet
    repeat' split
    all_goals intro hs
    all_goals simp_all [resp403, resp405, corsOrigin, corsAllowHeaders, corsAllowMethods]
  · unfold mcpGet
    repeat' split
    all_goals intro hs
    all_goals simp_all [resp403, resp405, corsOrigin, corsAllowHeaders, corsAllowMethods]

/-- **C5** counterexample.  The 400 bad-Accept response carries none of the
CORS headers, contradicting "attached to every response except the 403":
and even where CORS headers are attached, `Access-Control-Allow-Headers`
reads `Content-Type, Accept, Origin`, not
`Content-Type, Accept, Origin, Authorization`. -/
theorem c5_counterexample :
    (mcpPost fixtureEnv fixtureRepo (mkEvent (some "text/plain") (some "\x7b\x7d")) []).1.statusCode = 400
    ∧ corsOrigin ∉ (mcpPost fixtureEnv fixtureRepo
        (mkEvent (some "text/plain") (some "\x7b\x7d")) []).1.headers
    ∧ ("Access-Control-Allow-Headers", "Content-Type, Accept, Origin, Authorization")
        ∉ mcpOptions.headers :=
  ⟨by decide, by decide, by decide⟩

/-- **C5** witness: the amended theorem instantiated at a 202-producing
POST (CORS attached) and at a 405-producing GET (CORS omitted). -/
theorem c5_witness :
    corsOrigin ∈ (mcpPost fixtureEnv fixtureRepo
        (mkEvent (some "application/json") (some "\x7b\"result\":5\x7d")) []).1.headers
    ∧ corsOrigin ∉ (mcpGet fixtureEnv (mkEvent (some "application/json") none)).headers :=
  ⟨((c5_amended fixtureEnv fixtureRepo
      (mkEvent (some "application/json") (some "\x7b\"result\":5\x7d")) []).1
      (Or.inr (by decide))).1,
   ((c5_amended fixtureEnv fixtureRepo (mkEvent (some "application/json") none) []).2.2.2.2.1
      (Or.inr (by decide))).1⟩

/-- On a schedule list with no `null` entry, any message produced by the
validation loop starts with `Invalid workout_index `. -/
theorem cwpScheduleLoop_shape (len : Int) :
    ∀ ss msg, (∀ it ∈ ss, it ≠ Json.null) → cwpScheduleLoop len ss = some msg →
      ∃ r, msg = "Invalid workout_index " ++ r
  | [], msg => by
      intro _ h
      simp [cwpScheduleLoop] at h
  | item :: rest, msg => by
      intro hnn
      unfold cwpScheduleLoop
      rw [if_neg (hnn item (List.mem_cons_self item rest))]
      split
      · intro h
        exact ⟨_, (Option.some.inj h).symm⟩
      · exact cwpScheduleLoop_shape len rest msg
          (fun it hit => hnn it (List.mem_cons_of_mem item hit))

/-- A `null` schedule entry, or one with a numeric out-of-range
`workout_index`, makes the validation loop fire. -/
theorem cwpScheduleLoop_fires (len : Int) :
    ∀ ss, (∃ it ∈ ss, it = Json.null
        ∨ ∃ n : Int, it.get "workout_index" = some (.num n) ∧ (n < 0 ∨ len ≤ n)) →
      cwpScheduleLoop len ss ≠ none
  | [], h => by simp at h
  | item :: rest, h => by
      unfold cwpScheduleLoop
      split
      · simp
      · split
        · simp
        · rename_i hnull hcond
          rcases h with ⟨it, hit, hbad⟩
          rcases List.mem_cons.1 hit with rfl | hmem
          · rcases hbad with rfl | ⟨n, hn, hrange⟩
            · exact absurd rfl hnull
            · exfalso
              apply hcond
              rw [hn]
              rcases hrange with hlt | hge
              · simp [jsGE, jsLT, toNumJS, hlt]
              · simp [jsGE, jsLT, toNumJS, hge]
          · exact cwpScheduleLoop_fires len rest ⟨it, hmem, hbad⟩

theorem listStartsWith_self_append : ∀ (sub l : List Char), listStartsWith sub (sub ++ l) = true
  | [], _ => rfl
  | c :: cs, l => by simp [listStartsWith, listStartsWith_self_append cs l]

theorem listHasSub_append_left : ∀ (a sub rest : List Char),
    listHasSub sub rest = true → listHasSub sub (a ++ rest) = true
  | [], _, _, h => h
  | c :: cs, sub, rest, h => by
      show (listStartsWith sub (c :: (cs ++ rest)) || listHasSub sub (cs ++ rest)) = true
      rw [listHasSub_append_left cs sub rest h, Bool.or_true]

theorem listHasSub_of_split (a sub b : List Char) :
    listHasSub sub (a ++ (sub ++ b)) = true := by
  apply listHasSub_append_left
  cases sub with
  | nil => cases b <;> simp [listHasSub, listStartsWith]
  | cons c cs => simp [listHasSub, listStartsWith, listStartsWith_self_append]

/-- A statement-level substring occurrence is detected by the executable
`String.prototype.includes`. -/
theorem strContains_includes (s sub : String) (h : strContains s sub) :
    jsIncludes s sub = true := by
  obtain ⟨a, b, rfl⟩ := h
  unfold jsIncludes
  have hdata : (a ++ (sub ++ b)).data = a.data ++ (sub.data ++ b.data) := rfl
  rw [hdata]
  exact listHasSub_of_split a.data sub.data b.data

/-- **C4** (amended).  A `create_workout_program` call whose arguments fail
validation (connection succeeding) returns the caught `isError: true`
result carrying `Error: <validation message>` and leaves the store
untouched — no `ContentItems.create` call happens.  When the failing check
is the `workout_index` range test and no schedule entry is `null` (the
other checks passing), the text contains `Invalid workout_index`; a `null`
schedule entry reached first instead throws the line-866 TypeError, whose
message replaces the validation message (the original claim fails there).
And each of the conditions — missing or empty `workouts` or
`program_schedule`, a `null` schedule entry, or a numeric out-of-range
`workout_index` — does make validation fail. -/
theorem c4_validation_shortcircuit (env : Env) (repo : Repo) (p : Json) (store : Store)
    (args : Json) (msg : String)
    (hconn : repo.connectOk = .ok ())
    (hname : p.get "name" = some (.str "create_workout_program"))
    (hargs : p.get "arguments" = some args)
    (hnotnull : args ≠ .null)
    (hval : cwpValidationError args = some msg) :
    handleToolCall env repo (some p) store = .ok (toolErrorResult msg, store)
    ∧ (toolErrorResult msg).get "isError" = some (.bool true)
    ∧ (truthyOpt (args.get "program") = true →
        (∃ ws, args.get "workouts" = some (.arr ws) ∧ ws ≠ []) →
        (∃ ss, args.get "program_schedule" = some (.arr ss) ∧ ss ≠ []
          ∧ ∀ it ∈ ss, it ≠ Json.null) →
        strContains ("Error: " ++ msg) "Invalid workout_index")
    ∧ (∀ args2 : Json,
        (args2.get "workouts" = none ∨ args2.get "workouts" = some (.arr [])
          ∨ args2.get "program_schedule" = none ∨ args2.get "program_schedule" = some (.arr [])
          ∨ (∃ ws ss, args2.get "workouts" = some (.arr ws)
              ∧ args2.get "program_schedule" = some (.arr ss)
              ∧ ∃ it ∈ ss, it = Json.null
                  ∨ ∃ n : Int, it.get "workout_index" = some (.num n)
                      ∧ (n < 0 ∨ (ws.length : Int) ≤ n))) →
        cwpValidationError args2 ≠ none) := by
  refine ⟨?_, by simp [toolErrorResult, Json.get, List.lookup], ?_, ?_⟩
  · cases p with
    | null => simp [Json.get] at hname
    | bool b => simp [Json.get] at hname
    | num n => simp [Json.get] at hname
    | str s => simp [Json.get] at hname
    | arr xs => simp [Json.get] at hname
    | obj pf =>
      cases args with
      | null => exact absurd rfl hnotnull
      | bool b => simp [handleToolCall, hname, hargs, hconn, createWorkoutProgram, hval]
      | num n => simp [handleToolCall, hname, hargs, hconn, createWorkoutProgram, hval]
      | str s => simp [handleToolCall, hname, hargs, hconn, createWorkoutProgram, hval]
      | arr xs => simp [handleToolCall, hname, hargs, hconn, createWorkoutProgram, hval]
      | obj fs => simp [handleToolCall, hname, hargs, hconn, createWorkoutProgram, hval]
  · intro hprog hwse hsse2
    obtain ⟨ws, hws, hwsne⟩ := hwse
    obtain ⟨ss, hss, hssne, hssnn⟩ := hsse2
    have hloop : cwpScheduleLoop (ws.length : Int) ss = some msg := by
      unfold cwpValidationError at hval
      rw [hws, hss, hprog] at hval
      simp [truthyOpt, Json.truthy, hwsne, hssne] at hval
      exact hval
    obtain ⟨r, hr⟩ := cwpScheduleLoop_shape (ws.length : Int) ss msg hssnn hloop
    refine ⟨"Error: ", " " ++ r, ?_⟩
    rw [hr]
    have hsplit : ("Invalid workout_index " : String) = "Invalid workout_index" ++ " " := by
      decide
    rw [hsplit, String.append_assoc]
  · intro args2 h hnone
    unfold cwpValidationError at hnone
    split_ifs at hnone with h1 h2 h3
    rcases h with hw | hw | hw | hw | ⟨ws, ss, hws, hss, hwit⟩
    · exact h1 (Or.inr (Or.inl (by simp [hw, truthyOpt])))
    · exact h2 (by simp [hw])
    · exact h1 (Or.inr (Or.inr (by simp [hw, truthyOpt])))
    · exact h3 (by simp [hw])
    · rw [hws, hss] at hnone
      exact cwpScheduleLoop_fires (ws.length : Int) ss hwit hnone

/-- Spec scenario 9: `workout_index: 5` against two workouts. -/
def c4BadArgs : Json := .obj [
  ("program", .obj [("title", .str "P"), ("summary", .str "s"),
    ("description", .str "d"), ("creator", .str "u")]),
  ("workouts", .arr [.obj [("title", .str "W1")], .obj [("title", .str "W2")]]),
  ("program_schedule", .arr [.obj [("day", .num 1), ("workout_index", .num 5)]])]

/-- **C4** witness: the theorem at the spec scenario — `workout_index: 5`
with two workouts — yields the `isError` result with the `Invalid
workout_index` message and an unchanged (empty) store. -/
theorem c4_witness :
    handleToolCall fixtureEnv fixtureRepo
        (some (.obj [("name", .str "create_workout_program"), ("arguments", c4BadArgs)])) []
      = .ok (toolErrorResult
          "Invalid workout_index 5 in program_schedule. Must be between 0 and 1", [])
    ∧ strContains
        ("Error: " ++ "Invalid workout_index 5 in program_schedule. Must be between 0 and 1")
        "Invalid workout_index" :=
  have h := c4_validation_shortcircuit fixtureEnv fixtureRepo
    (.obj [("name", .str "create_workout_program"), ("arguments", c4BadArgs)]) [] c4BadArgs
    "Invalid workout_index 5 in program_schedule. Must be between 0 and 1"
    rfl rfl rfl (by decide) rfl
  ⟨h.1, h.2.2.1 (by decide)
    ⟨[.obj [("title", .str "W1")], .obj [("title", .str "W2")]], rfl, by decide⟩
    ⟨[.obj [("day", .num 1), ("workout_index", .num 5)]], rfl, by decide, by decide⟩⟩

/-- Arguments whose `program_schedule` holds a `null` entry ahead of an
out-of-range `workout_index: 5` entry, against two workouts. -/
def c4NullArgs : Json := .obj [
  ("program", .obj [("title", .str "P")]),
  ("workouts", .arr [.obj [("title", .str "W1")], .obj [("title", .str "W2")]]),
  ("program_schedule", .arr [Json.null, .obj [("day", .num 2), ("workout_index", .num 5)]])]

/-- **C4** counterexample.  `c4NullArgs` satisfies the claim's antecedent —
some `program_schedule` entry carries `workout_index: 5`, outside
`[0, 2)` — yet the tool text is the line-866 TypeError message
(`Cannot read properties of null (reading \x27workout_index\x27)`), which
does not contain `Invalid workout_index`: the `null` entry ahead of the
out-of-range one throws first.  The result is still `isError: true` with
an unchanged store. -/
theorem c4_counterexample :
    (∃ it ∈ [Json.null, Json.obj [("day", .num 2), ("workout_index", .num 5)]],
      it.get "workout_index" = some (.num 5) ∧ ((5 : Int) < 0 ∨ (2 : Int) ≤ 5))
    ∧ handleToolCall fixtureEnv fixtureRepo
        (some (.obj [("name", .str "create_workout_program"), ("arguments", c4NullArgs)])) []
      = .ok (toolErrorResult "Cannot read properties of null (reading \x27workout_index\x27)", [])
    ∧ ¬ strContains
        ("Error: " ++ "Cannot read properties of null (reading \x27workout_index\x27)")
        "Invalid workout_index" :=
  ⟨⟨.obj [("day", .num 2), ("workout_index", .num 5)], by decide, by decide, by decide⟩,
   rfl,
   fun h => absurd (strContains_includes _ _ h) (by decide)⟩

/-! ### C10: the total-duration calculation -/

/-- The items the duration loop iterates for one section (empty when the
section has no truthy `items` array). -/
def sectionItems (sec : Json) : List Json :=
  match sec.get "items" with
  | some (.arr its) => its
  | _ => []

/-- All items of all sections, in iteration order. -/
def flatItems (secs : List Json) : List Json :=
  (secs.map sectionItems).flatten

/-- The numeric value of `item.medium || item.easy || item.hard || 0`. -/
def itemDurInt (it : Json) : Int :=
  match itemDuration it with
  | .ok (.num n) => n
  | _ => 0

/-- An item the duration loop consumes without throwing and with a numeric
`|| 0` chain: in particular not `null`. -/
def itemOk (it : Json) : Bool :=
  match itemDuration it with
  | .ok (.num _) => true
  | _ => false

/-- The section is non-`null` (line 899 reads its `.items`) and either
skipped (`items` falsy/absent) or an array of `itemOk` items. -/
def secItemsOk (sec : Json) : Bool :=
  if sec = .null then false
  else
    match sec.get "items" with
    | none => true
    | some v =>
        if v.truthy then
          match v with
          | .arr its => its.all itemOk
          | _ => false
        else true

def sectionsOk (secs : List Json) : Bool :=
  secs.all secItemsOk

theorem sumItems_spec : ∀ (its : List Json) (a c : Int),
    its.all itemOk = true →
    sumItems (Json.num a, c) its = .ok (.num (a + (its.map itemDurInt).sum), c + its.length)
  | [], a, c, _ => by simp [sumItems]
  | it :: rest, a, c, h => by
      simp only [List.all_cons, Bool.and_eq_true] at h
      obtain ⟨h1, h2⟩ := h
      unfold itemOk at h1
      rcases hd : itemDuration it with e | v
      · rw [hd] at h1; simp at h1
      · rcases v with _ | b | n | s | xs | fs <;> rw [hd] at h1 <;> simp at h1
        unfold sumItems
        simp only [hd, jsPlus]
        rw [sumItems_spec rest (a + n) (c + 1) h2]
        simp only [List.map_cons, List.sum_cons, List.length_cons, itemDurInt, hd,
          Except.ok.injEq, Prod.mk.injEq, Json.num.injEq]
        constructor <;> omega

theorem flatItems_cons (sec : Json) (rest : List Json) :
    flatItems (sec :: rest) = sectionItems sec ++ flatItems rest := by
  simp [flatItems]

theorem sumSections_spec : ∀ (secs : List Json) (a c : Int), sectionsOk secs = true →
    sumSections (Json.num a, c) secs
      = .ok (.num (a + ((flatItems secs).map itemDurInt).sum),
          c + ((flatItems secs).length : Int))
  | [], a, c, _ => by simp [sumSections, flatItems]
  | sec :: rest, a, c, h => by
      simp only [sectionsOk, List.all_cons, Bool.and_eq_true] at h
      obtain ⟨h1, h2⟩ := h
      have h2' : sectionsOk rest = true := h2
      unfold sumSections
      unfold secItemsOk at h1
      by_cases hnull : sec = Json.null
      · rw [if_pos hnull] at h1
        simp at h1
      · rw [if_neg hnull] at h1 ⊢
        cases hit : sec.get "items" with
        | none =>
            rw [hit] at h1
            simp [flatItems_cons, sectionItems, hit, sumSections_spec rest a c h2']
        | some v =>
            rw [hit] at h1
            dsimp only at h1 ⊢
            by_cases htr : v.truthy = true
            · rw [if_pos htr] at h1 ⊢
              cases v with
              | arr its =>
                  dsimp only at h1 ⊢
                  rw [sumItems_spec its a c h1]
                  dsimp only
                  rw [sumSections_spec rest (a + (its.map itemDurInt).sum)
                    (c + its.length) h2']
                  simp only [flatItems_cons, sectionItems, hit, List.map_append, List.sum_append,
                    List.length_append, Except.ok.injEq, Prod.mk.injEq, Json.num.injEq]
                  constructor <;> push_cast <;> omega
              | null => simp at h1
              | bool b => simp at h1
              | num n => simp at h1
              | str s => simp at h1
              | obj fs => simp at h1
            · rw [if_neg htr] at h1 ⊢
              rw [sumSections_spec rest a c h2']
              have hsec : sectionItems sec = [] := by
                unfold sectionItems
                rw [hit]
                cases v with
                | arr its => simp [Json.truthy] at htr
                | null => rfl
                | bool b => rfl
                | num n => rfl
                | str s => rfl
                | obj fs => rfl
              simp [flatItems_cons, hsec]

def Json.isObj (j : Json) : Prop :=
  ∃ fs, j = .obj fs

theorem isObj_setField {j : Json} (k : String) (v : Json) (h : j.isObj) :
    (j.setField k v).isObj := by
  obtain ⟨fs, rfl⟩ := h
  exact ⟨_, rfl⟩

theorem isObj_setFieldOpt {j : Json} (k : String) (o : Option Json) (h : j.isObj) :
    (j.setFieldOpt k o).isObj := by
  cases o with
  | none => exact h
  | some v => exact isObj_setField k v h

theorem get_setField_self' {j : Json} (k : String) (v : Json) (h : j.isObj) :
    (j.setField k v).get k = some v := by
  obtain ⟨fs, rfl⟩ := h
  exact get_setField_self fs k v

theorem get_setField_ne' (j : Json) (k k2 : String) (v : Json) (h : k2 ≠ k) :
    (j.setField k v).get k2 = j.get k2 := by
  cases j with
  | obj fs => exact get_setField_ne fs k k2 v h
  | null => rfl
  | bool b => rfl
  | num n => rfl
  | str s => rfl
  | arr xs => rfl

/-- `applyCommonItemFields` succeeds on an object document whenever the
slug step cannot throw, produces an object, and leaves
`content_metadata = src.content_metadata || \x7b\x7d` as its last field
update. -/
theorem applyCommonItemFields_cm (src doc : Json) (hdoc : doc.isObj)
    (hslug : (∃ v, src.get "slug" = some v ∧ v.truthy = true)
      ∨ (∃ t, src.get "title" = some (.str t))) :
    ∃ out, applyCommonItemFields src doc = .ok out ∧ out.isObj
      ∧ out.get "content_metadata" = some (jsOrJ (src.get "content_metadata") (.obj [])) := by
  have hstep : ∃ sv, (match src.get "slug" with
      | some v => if v.truthy then Except.ok v else slugFromTitle src
      | none => slugFromTitle src) = Except.ok sv := by
    rcases hslug with ⟨v, hv, htr⟩ | ⟨t, ht⟩
    · exact ⟨v, by rw [hv]; simp [htr]⟩
    · cases hsv : src.get "slug" with
      | none => exact ⟨.str (generateSlug t), by simp [hsv, slugFromTitle, ht]⟩
      | some v =>
          by_cases htr : v.truthy = true
          · exact ⟨v, by simp [hsv, htr]⟩
          · exact ⟨.str (generateSlug t), by simp [hsv, htr, slugFromTitle, ht]⟩
  obtain ⟨sv, hsv⟩ := hstep
  unfold applyCommonItemFields
  rw [hsv]
  dsimp only
  have hd4 : ((((doc.setField "slug" sv).setField "locale"
      (createLocaleArray (src.get "title") (src.get "summary") (src.get "description")
        "en")).setFieldOpt "creator" (src.get "creator")).setField "categories"
      (jsOrJ (src.get "categories") (.arr []))).isObj :=
    isObj_setField _ _ (isObj_setFieldOpt _ _ (isObj_setField _ _ (isObj_setField _ _ hdoc)))
  have hd5 : (match (((doc.setField "slug" sv).setField "locale"
      (createLocaleArray (src.get "title") (src.get "summary") (src.get "description")
        "en")).setFieldOpt "creator" (src.get "creator")).setField "categories"
      (jsOrJ (src.get "categories") (.arr [])) |>.get "settings" with
    | some st => ((((doc.setField "slug" sv).setField "locale"
        (createLocaleArray (src.get "title") (src.get "summary") (src.get "description")
          "en")).setFieldOpt "creator" (src.get "creator")).setField "categories"
        (jsOrJ (src.get "categories") (.arr []))).setField "settings"
        (st.setField "is_premium" (jsOrJ (src.get "is_premium") (.bool false)))
    | none => (((doc.setField "slug" sv).setField "locale"
        (createLocaleArray (src.get "title") (src.get "summary") (src.get "description")
          "en")).setFieldOpt "creator" (src.get "creator")).setField "categories"
        (jsOrJ (src.get "categories") (.arr []))).isObj := by
    split
    · exact isObj_setField _ _ hd4
    · exact hd4
  exact ⟨_, rfl, isObj_setField _ _ hd5, get_setField_self' _ _ hd5⟩

/-- **C10** (amended).  For the workout document built by
`createWorkoutProgram` for each workout (`buildWorkoutDoc`, the loop body
passed to `ContentItems.create`): (a) when
`content_metadata.total_duration` is *falsy* (absent, null or `0`) and
`sections` is a present array of non-`null` sections whose items are
non-`null` with numeric duration chains, the created document's
`content_metadata` gets `total_duration` set to the sum over all items of
all sections of `medium || easy || hard || 0` (the first truthy of the
chain) and `exercise_count` set to the total number of items; (b) when
`total_duration` is truthy it is left exactly as supplied (no
recomputation); (c) when `sections` is absent or falsy nothing is
recomputed either — in particular an absent `total_duration` with no
`sections` stays absent rather than becoming 0; (d) a `null` section
instead throws the line-899 TypeError, so the workout creation fails and
no document is produced at all. -/
theorem c10_amended (env : Env) (uuid : String) (workout : Json)
    (hslug : (∃ v, workout.get "slug" = some v ∧ v.truthy = true)
      ∨ (∃ t, workout.get "title" = some (.str t))) :
    (∀ secs, workout.get "sections" = some (.arr secs) →
      truthyOpt ((jsOrJ (workout.get "content_metadata") (.obj [])).get "total_duration") = false →
      sectionsOk secs = true →
      ∃ doc, buildWorkoutDoc env uuid workout = .ok doc
        ∧ doc.get "content_metadata" = some
            (((jsOrJ (workout.get "content_metadata") (.obj [])).setField "total_duration"
              (.num ((flatItems secs).map itemDurInt).sum)).setField "exercise_count"
              (.num ((flatItems secs).length : Int))))
    ∧ (truthyOpt ((jsOrJ (workout.get "content_metadata") (.obj [])).get "total_duration") = true →
      ∃ doc, buildWorkoutDoc env uuid workout = .ok doc
        ∧ doc.get "content_metadata" = some (jsOrJ (workout.get "content_metadata") (.obj [])))
    ∧ (truthyOpt (workout.get "sections") = false →
      ∃ doc, buildWorkoutDoc env uuid workout = .ok doc
        ∧ doc.get "content_metadata" = some (jsOrJ (workout.get "content_metadata") (.obj [])))
    ∧ (∀ tl, workout.get "sections" = some (.arr (Json.null :: tl)) →
      truthyOpt ((jsOrJ (workout.get "content_metadata") (.obj [])).get "total_duration") = false →
      buildWorkoutDoc env uuid workout
        = .error "Cannot read properties of null (reading \x27items\x27)") := by
  have hnn : workout ≠ Json.null := by
    rintro rfl
    rcases hslug with ⟨v, hv, _⟩ | ⟨t, ht⟩
    · simp [Json.get] at hv
    · simp [Json.get] at ht
  obtain ⟨out, hac, hobj, hcm⟩ := applyCommonItemFields_cm workout
    (createDefaultContentItem env uuid "workouts") ⟨_, rfl⟩ hslug
  refine ⟨?_, ?_, ?_, ?_⟩
  · intro secs hsec htd hok
    unfold buildWorkoutDoc
    rw [if_neg hnn, hac]
    dsimp only
    rw [if_pos ⟨by simp [htd], by simp [hsec, truthyOpt, Json.truthy]⟩]
    rw [hsec]
    dsimp only
    rw [sumSections_spec secs 0 0 hok]
    refine ⟨_, rfl, ?_⟩
    rw [get_setField_self' _ _ (isObj_setField _ _ hobj)]
    simp
  · intro htd
    unfold buildWorkoutDoc
    rw [if_neg hnn, hac]
    dsimp only
    rw [if_neg (by simp [htd])]
    refine ⟨_, rfl, ?_⟩
    rw [get_setField_ne' _ _ _ _ (by decide)]
    exact hcm
  · intro hsecf
    unfold buildWorkoutDoc
    rw [if_neg hnn, hac]
    dsimp only
    rw [if_neg (by simp [hsecf])]
    refine ⟨_, rfl, ?_⟩
    rw [get_setField_ne' _ _ _ _ (by decide)]
    exact hcm
  · intro tl hsec htd
    unfold buildWorkoutDoc
    rw [if_neg hnn, hac]
    dsimp only
    rw [if_pos ⟨by simp [htd], by simp [hsec, truthyOpt, Json.truthy]⟩]
    rw [hsec]
    dsimp only
    have hthrow : sumSections (Json.num 0, 0) (Json.null :: tl)
        = .error "Cannot read properties of null (reading \x27items\x27)" := by
      unfold sumSections
      rw [if_pos rfl]
    rw [hthrow]

/-- A `create_workout_program` argument object whose single workout
*supplies* `content_metadata.total_duration` as `0` while its sections sum
to 7 seconds. -/
def c10Args : Json := .obj [
  ("program", .obj [("title", .str "P"), ("slug", .str "p"), ("summary", .str "s"),
    ("description", .str "d"), ("creator", .str "u")]),
  ("workouts", .arr [.obj [("title", .str "W1"), ("slug", .str "w1"),
    ("content_metadata", .obj [("total_duration", .num 0)]),
    ("sections", .arr [.obj [("label", .str "A"),
      ("items", .arr [.obj [("_id", .str "e1"), ("medium", .num 7)]])]])]]),
  ("program_schedule", .arr [.obj [("day", .num 1), ("workout_index", .num 0)]])]

/-- **C10** counterexample.  The workout of `c10Args` supplies
`total_duration: 0`, yet the first document handed to
`ContentItems.create` has `total_duration: 7` (and a freshly added
`exercise_count`): a supplied-but-falsy value is not "left exactly as
given" — the guard tests truthiness, not absence. -/
theorem c10_counterexample :
    (match c10Args.get "workouts" with
      | some (.arr (w :: _)) => (jsOrJ (w.get "content_metadata") (.obj [])).get "total_duration"
      | _ => none) = some (.num 0)
    ∧ ((createWorkoutProgram fixtureEnv fixtureRepo (some c10Args) []).2.head?.map
        (fun d => d.get "content_metadata"))
      = some (some (.obj [("total_duration", .num 7), ("exercise_count", .num 1)]))
    ∧ Json.num 7 ≠ Json.num 0 :=
  ⟨by decide, by decide, by decide⟩

/-- **C10** witness: the amended theorem at a concrete workout (supplied
`total_duration: 0`, one item with `medium: 7`). -/
theorem c10_witness :
    (buildWorkoutDoc fixtureEnv "u"
      (.obj [("slug", .str "w1"),
        ("content_metadata", .obj [("total_duration", .num 0)]),
        ("sections", .arr [.obj [("items", .arr [.obj [("medium", .num 7)]])]])])).toOption.map
        (fun d => d.get "content_metadata")
      = some (some (.obj [("total_duration", .num 7), ("exercise_count", .num 1)])) := by
  obtain ⟨doc, h1, h2⟩ := (c10_amended fixtureEnv "u"
      (.obj [("slug", .str "w1"),
        ("content_metadata", .obj [("total_duration", .num 0)]),
        ("sections", .arr [.obj [("items", .arr [.obj [("medium", .num 7)]])]])])
      (Or.inl ⟨.str "w1", rfl, rfl⟩)).1
    [.obj [("items", .arr [.obj [("medium", .num 7)]])]] rfl (by decide) (by decide)
  rw [h1]
  simp only [Except.toOption, Option.map, h2]
  decide

/-- **C9** counterexample.  A present-but-empty `method` (`""`) is not one
of the five known methods, yet the handler answers 400, not 200 with
`-32601`: dispatch is gated on JS truthiness of `method`, not presence. -/
theorem c9_counterexample :
    parseBody (some "\x7b\"method\":\"\",\"id\":1\x7d")
      = .ok (.obj [("method", .str ""), ("id", .num 1)])
    ∧ (mcpPost fixtureEnv fixtureRepo
        (mkEvent (some "application/json") (some "\x7b\"method\":\"\",\"id\":1\x7d")) []).1.statusCode
      = 400
    ∧ (400 : Nat) ≠ 200 :=
  ⟨rfl, by decide, by decide⟩
